import Mathlib

/-!
Verification of the medical-document reconciliation core of the
Vg_Medical_Pt repository (files `analizador_discrepancias.py` and
`smart_ocr.py`), as a shallow embedding in Lean 4.

Modelling conventions:
* Python strings are `List Char` (`Str`); `str.lower` is modelled by a
  character table covering ASCII plus the accented letters that occur in
  the repository's patterns and data (á é í ó ú ñ and their capitals);
* Python regular expressions are embedded as abstract syntax trees for the
  exact constructs the repository uses and run by a backtracking matcher
  with the same leftmost / priority / greediness semantics as `re`;
* numbers parsed from `\d+` groups are `Nat`, rational arithmetic (`ℚ`)
  stands for Python float arithmetic (divergences are possible only at
  representation/tie boundaries none of the verified claims touch);
* JSON-ish record inputs of the analyzer are typed records with `Option`
  fields: `none` is an absent (or `None`-valued) key.
-/

namespace VgMedical

abbrev Str := List Char

/-- The simple case-mapping table of Python `str.lower`, restricted to the
alphabet the repository manipulates (ASCII plus á é í ó ú ñ ç ô and their
capitals); every other character is fixed. -/
def lowerTable : List (Char × Char) :=
  [('A', 'a'), ('B', 'b'), ('C', 'c'), ('D', 'd'), ('E', 'e'), ('F', 'f'),
   ('G', 'g'), ('H', 'h'), ('I', 'i'), ('J', 'j'), ('K', 'k'), ('L', 'l'),
   ('M', 'm'), ('N', 'n'), ('O', 'o'), ('P', 'p'), ('Q', 'q'), ('R', 'r'),
   ('S', 's'), ('T', 't'), ('U', 'u'), ('V', 'v'), ('W', 'w'), ('X', 'x'),
   ('Y', 'y'), ('Z', 'z'),
   ('Á', 'á'), ('É', 'é'), ('Í', 'í'), ('Ó', 'ó'), ('Ú', 'ú'), ('Ñ', 'ñ'),
   ('Ç', 'ç'), ('Ô', 'ô')]

def pyCharLower (c : Char) : Char :=
  ((lowerTable.find? (fun p => p.1 == c)).map (fun p => p.2)).getD c

/-- Python `str.upper` on single characters, same alphabet restriction. -/
def pyCharUpper : Char → Char
  | 'a' => 'A' | 'b' => 'B' | 'c' => 'C' | 'd' => 'D' | 'e' => 'E' | 'f' => 'F'
  | 'g' => 'G' | 'h' => 'H' | 'i' => 'I' | 'j' => 'J' | 'k' => 'K' | 'l' => 'L'
  | 'm' => 'M' | 'n' => 'N' | 'o' => 'O' | 'p' => 'P' | 'q' => 'Q' | 'r' => 'R'
  | 's' => 'S' | 't' => 'T' | 'u' => 'U' | 'v' => 'V' | 'w' => 'W' | 'x' => 'X'
  | 'y' => 'Y' | 'z' => 'Z'
  | 'á' => 'Á' | 'é' => 'É' | 'í' => 'Í' | 'ó' => 'Ó' | 'ú' => 'Ú' | 'ñ' => 'Ñ'
  | 'ç' => 'Ç' | 'ô' => 'Ô'
  | c => c

def pyLower (s : Str) : Str := s.map pyCharLower

/-- Python whitespace (`str.strip` / regex class) restricted to ASCII. -/
def iws (c : Char) : Bool :=
  c = ' ' || c = '\t' || c = '\n' || c = '\r' || c = '\x0b' || c = '\x0c'

/-- Python `str.strip`. -/
def pyStrip (s : Str) : Str :=
  (((s.dropWhile iws).reverse.dropWhile iws)).reverse

/-- Worker for `collapseWs`: the flag records whether the previous character
belonged to a whitespace run whose single replacement space is already
emitted. -/
def collapseGo : Bool → Str → Str
  | _, [] => []
  | inRun, c :: rest =>
      if iws c then
        if inRun then collapseGo true rest else ' ' :: collapseGo true rest
      else c :: collapseGo false rest

/-- Python `re.sub` with the whitespace-run pattern and a space replacement:
each maximal run of whitespace characters becomes a single space. -/
def collapseWs (s : Str) : Str := collapseGo false s

/-- Embedding of `AnalizadorDiscrepancias.normalizar_texto`: empty input short-circuits to
the empty string, otherwise whitespace runs of the lower-cased, stripped text
are collapsed to single spaces. -/
def normalizar_texto (t : Str) : Str :=
  if t = [] then [] else collapseWs (pyStrip (pyLower t))

def txt (s : String) : Str := s.data

/-! ## A regular-expression engine for the subset of Python `re` the
repository uses: character classes, concatenation, prioritized alternation,
greedy and reluctant quantifiers, one capturing group, `^` and `$`.
The backtracking matcher follows `re`'s leftmost / first-alternative /
greediness semantics; `fuel` only bounds the recursion depth and is chosen
large enough for every evaluation performed below. -/

inductive RE where
  | emp : RE
  | ch (p : Char → Bool) : RE
  | cat (a b : RE) : RE
  | alt (a b : RE) : RE
  | star (a : RE) (reluctant : Bool) : RE
  | grp (a : RE) : RE
  | bos : RE
  | eol (ml : Bool) : RE

def RE.size : RE → ℕ
  | .emp => 1
  | .ch _ => 1
  | .cat a b => a.size + b.size + 1
  | .alt a b => a.size + b.size + 1
  | .star a _ => a.size + 2
  | .grp a => a.size + 1
  | .bos => 1
  | .eol _ => 1

/-- Backtracking matcher in continuation-passing style.  `k` receives the
position after the current node and the capture of the (unique) group; a
`star` iteration that consumes nothing is cut off, as no pattern below
repeats a nullable body. -/
def reMatch (s : Str) : ℕ → RE → ℕ → Option (ℕ × ℕ) →
    (ℕ → Option (ℕ × ℕ) → Option (ℕ × Option (ℕ × ℕ))) →
    Option (ℕ × Option (ℕ × ℕ))
  | 0, _, _, _, _ => none
  | fuel+1, r, pos, cap, k =>
    match r with
    | .emp => k pos cap
    | .ch p =>
        match (s.drop pos).head? with
        | some c => if p c then k (pos+1) cap else none
        | none => none
    | .cat a b => reMatch s fuel a pos cap (fun p c => reMatch s fuel b p c k)
    | .alt a b =>
        match reMatch s fuel a pos cap k with
        | some res => some res
        | none => reMatch s fuel b pos cap k
    | .star a rl =>
        if rl then
          match k pos cap with
          | some res => some res
          | none => reMatch s fuel a pos cap
              (fun p c => if p = pos then none else reMatch s fuel (.star a true) p c k)
        else
          match reMatch s fuel a pos cap
              (fun p c => if p = pos then none else reMatch s fuel (.star a false) p c k) with
          | some res => some res
          | none => k pos cap
    | .grp a => reMatch s fuel a pos cap (fun p _ => k p (some (pos, p)))
    | .bos => if pos = 0 then k pos cap else none
    | .eol ml =>
        match s.drop pos with
        | [] => k pos cap
        | c :: rest => if c = '\n' && (ml || rest.isEmpty) then k pos cap else none

def reFuel (r : RE) (s : Str) : ℕ := (r.size + 2) * (s.length + 2) + 16

structure ReMatchRes where
  mstart : ℕ
  mend : ℕ
  cap : Option (ℕ × ℕ)
deriving DecidableEq, Repr

def slice (s : Str) (a b : ℕ) : Str := (s.drop a).take (b - a)

def ReMatchRes.group0 (m : ReMatchRes) (s : Str) : Str := slice s m.mstart m.mend

def ReMatchRes.group1 (m : ReMatchRes) (s : Str) : Option Str :=
  m.cap.map (fun p => slice s p.1 p.2)

/-- Leftmost search starting at `start` (with step fuel `f`），as `re.search`
does from a given position. -/
def reSearchAux (r : RE) (s : Str) : ℕ → ℕ → Option ReMatchRes
  | 0, _ => none
  | f+1, start =>
    if start > s.length then none
    else
      match reMatch s (reFuel r s) r start none (fun p c => some (p, c)) with
      | some (e, c) => some ⟨start, e, c⟩
      | none => reSearchAux r s f (start+1)

/-- Python `re.search`. -/
def reFind (r : RE) (s : Str) : Option ReMatchRes :=
  reSearchAux r s (s.length + 1) 0

/-- Python `re.findall` (list of the non-overlapping matches from the left;
an empty match advances by one character). -/
def reFindallAux (r : RE) (s : Str) : ℕ → ℕ → List ReMatchRes
  | 0, _ => []
  | f+1, start =>
    match reSearchAux r s (s.length + 1 - start) start with
    | none => []
    | some m =>
        if m.mend > m.mstart then m :: reFindallAux r s f m.mend
        else m :: reFindallAux r s f (m.mend + 1)

def reFindall (r : RE) (s : Str) : List ReMatchRes :=
  reFindallAux r s (s.length + 2) 0

/-- Python `re.sub` with a literal (backreference-free) replacement. -/
def reSubAux (r : RE) (rep : Str) (s : Str) : ℕ → ℕ → Str
  | 0, pos => s.drop pos
  | f+1, pos =>
    match reSearchAux r s (s.length + 1 - pos) pos with
    | none => s.drop pos
    | some m =>
        if m.mend > m.mstart then
          slice s pos m.mstart ++ rep ++ reSubAux r rep s f m.mend
        else
          slice s pos m.mstart ++ rep ++
            ((s.drop m.mend).take 1) ++ reSubAux r rep s f (m.mend + 1)

def reSub (r : RE) (rep : Str) (s : Str) : Str := reSubAux r rep s (s.length + 2) 0

/-! Smart constructors mirroring the textual patterns. -/

/-- A literal character, optionally caseless (`re.IGNORECASE`). -/
def reChar (ci : Bool) (c : Char) : RE :=
  .ch (fun x => x = c || (ci && pyCharLower x = pyCharLower c))

def reSeq (l : List RE) : RE := l.foldr .cat .emp

def reLit (ci : Bool) (l : String) : RE := reSeq (l.data.map (reChar ci))

def reAlts : List RE → RE
  | [] => .emp
  | [a] => a
  | a :: rest => .alt a (reAlts rest)

/-- Greedy `?`. -/
def reOpt (a : RE) : RE := .alt a .emp

/-- Greedy `+`. -/
def rePlus (a : RE) : RE := .cat a (.star a false)

/-- Reluctant `+?`. -/
def rePlusLazy (a : RE) : RE := .cat a (.star a true)

/-- Exactly `n` repetitions. -/
def reRep (a : RE) : ℕ → RE
  | 0 => .emp
  | n+1 => .cat a (reRep a n)

/-- Greedy `{0,k}`. -/
def reUpTo (a : RE) : ℕ → RE
  | 0 => .emp
  | k+1 => .alt (.cat a (reUpTo a k)) .emp

/-- Greedy `{m,n}`. -/
def reRange (a : RE) (m n : ℕ) : RE := .cat (reRep a m) (reUpTo a (n - m))

/-- Greedy `{m,}`. -/
def reAtLeast (a : RE) (m : ℕ) : RE := .cat (reRep a m) (.star a false)

/-- Class `\d` (ASCII model of the digits Python arithmetic then consumes). -/
def reD : RE := .ch Char.isDigit

/-- Class `\s`. -/
def reS : RE := .ch iws

/-! ## Embedding of `AnalizadorDiscrepancias`: date comparison -/

/-- The `patrones_fecha` table: `\d{1,2}/\d{1,2}/\d{4}`,
`\d{1,2}-\d{1,2}-\d{4}`, `\d{4}/\d{1,2}/\d{1,2}`, `\d{4}-\d{1,2}-\d{1,2}`,
in the listed priority order. -/
def patFechaDMY (sep : Char) : RE :=
  reSeq [reRange reD 1 2, reChar false sep, reRange reD 1 2, reChar false sep, reRep reD 4]

def patFechaYMD (sep : Char) : RE :=
  reSeq [reRep reD 4, reChar false sep, reRange reD 1 2, reChar false sep, reRange reD 1 2]

def patrones_fecha : List RE :=
  [patFechaDMY '/', patFechaDMY '-', patFechaYMD '/', patFechaYMD '-']

/-- First pattern of the list that matches somewhere in `s` wins; its whole
match is returned. -/
def firstPatternHit (ps : List RE) (s : Str) : Option Str :=
  match ps with
  | [] => none
  | p :: rest =>
      match reFind p s with
      | some m => some (m.group0 s)
      | none => firstPatternHit rest s

/-- Embedding of `AnalizadorDiscrepancias.extraer_fecha_texto`. -/
def extraer_fecha_texto (t : Str) : Option Str :=
  firstPatternHit patrones_fecha (normalizar_texto t)

/-- Python `set(...)` materialized as first-occurrence deduplication (the
actual enumeration order of a Python `set` is interpreter-dependent; every
verified statement below is insensitive to it). -/
def pyDedupGo {α : Type} [DecidableEq α] : List α → List α → List α
  | _, [] => []
  | seen, a :: rest =>
      if a ∈ seen then pyDedupGo seen rest
      else a :: pyDedupGo (seen ++ [a]) rest

def pyDedup {α : Type} [DecidableEq α] (l : List α) : List α := pyDedupGo [] l

def joinSep (sep : Str) (l : List Str) : Str := (l.intersperse sep).flatten

/-- The `fechas_validas` list inside `comparar_fechas`: one optional token
per source (empty sources skipped), falsy entries filtered out. -/
def fechas_validas (f1 f2 f3 : Str) : List Str :=
  ([if f1 ≠ [] then extraer_fecha_texto f1 else none,
    if f2 ≠ [] then extraer_fecha_texto f2 else none,
    if f3 ≠ [] then extraer_fecha_texto f3 else none]).filterMap (fun o =>
      match o with
      | some f => if f = [] then none else some f
      | none => none)

/-- Embedding of `AnalizadorDiscrepancias.comparar_fechas`. -/
def comparar_fechas (f1 f2 f3 : Str) : Bool × Str :=
  let validas := fechas_validas f1 f2 f3
  if validas = [] then
    (false, txt "No se encontraron fechas válidas")
  else if (pyDedup validas).length = 1 then
    (true, txt "Todas las fechas coinciden: " ++ validas.headD [])
  else
    (false, txt "Fechas diferentes encontradas: " ++ joinSep (txt ", ") (pyDedup validas))

/-! ## Embedding of `AnalizadorDiscrepancias`: fuzzy name comparison

`difflib.SequenceMatcher(None, a, b).ratio()` is modelled by the
Ratcliff/Obershelp computation below: recursively split both strings around
the longest common block (ties resolved towards the earliest start in `a`,
then in `b`, as `find_longest_match` does) and count matched characters.
`difflib`'s `autojunk` popularity heuristic (active only when the second
string has at least 200 characters) is not modelled; no verified statement
depends on ratio values. -/

def runLen : Str → Str → ℕ
  | a :: as, b :: bs => if a = b then runLen as bs + 1 else 0
  | _, _ => 0

/-- Longest common block of `a` and `b` as `(i, j, size)`. -/
def bestBlock (a b : Str) : ℕ × ℕ × ℕ :=
  (List.range (a.length)).foldl (fun best i =>
    (List.range (b.length)).foldl (fun best j =>
      let k := runLen (a.drop i) (b.drop j)
      if k > best.2.2 then (i, j, k) else best) best) (0, 0, 0)

def totalMatches : ℕ → Str → Str → ℕ
  | 0, _, _ => 0
  | fuel+1, a, b =>
      let (i, j, k) := bestBlock a b
      if k = 0 then 0
      else totalMatches fuel (a.take i) (b.take j) + k +
           totalMatches fuel (a.drop (i + k)) (b.drop (j + k))

def diffRatio (a b : Str) : ℚ :=
  if a.length + b.length = 0 then 1
  else 2 * (totalMatches (a.length + b.length) a b : ℚ) / ((a.length + b.length : ℕ) : ℚ)

/-- Decimal digits of a natural number. -/
def natToStr (n : ℕ) : Str := Nat.toDigits 10 n

def intToStr (n : ℤ) : Str :=
  if n < 0 then '-' :: natToStr n.natAbs else natToStr n.toNat

/-- Display of a similarity with two decimals (message text only). -/
def fmt2 (q : ℚ) : Str :=
  let n := (Int.floor (q * 100 + 1/2)).toNat
  natToStr (n / 100) ++ txt "." ++
    (if n % 100 < 10 then '0' :: natToStr (n % 100) else natToStr (n % 100))

def allPairs {α : Type} : List α → List (α × α)
  | [] => []
  | a :: rest => rest.map (fun b => (a, b)) ++ allPairs rest

/-- Embedding of `AnalizadorDiscrepancias.comparar_nombres`. -/
def comparar_nombres (n1 n2 n3 : Str) : Bool × Str :=
  let nombres : List Str :=
    [if n1 ≠ [] then normalizar_texto n1 else [],
     if n2 ≠ [] then normalizar_texto n2 else [],
     if n3 ≠ [] then normalizar_texto n3 else []]
  let nombres_validos := nombres.filter (fun n => decide (n ≠ [] ∧ n ≠ txt "n/a"))
  if nombres_validos = [] then (false, txt "No se encontraron nombres válidos")
  else
    let similitudes := (allPairs nombres_validos).map (fun p => diffRatio p.1 p.2)
    if similitudes = [] then
      (true, txt "Solo un nombre disponible: " ++ nombres_validos.headD [])
    else
      let promedio := similitudes.sum / (similitudes.length : ℚ)
      if promedio ≥ 4/5 then
        (true, txt "Nombres similares (similitud: " ++ fmt2 promedio ++ txt ")")
      else
        (false, txt "Nombres diferentes (similitud: " ++ fmt2 promedio ++ txt "): " ++
          joinSep (txt ", ") nombres_validos)

/-! ## Embedding of `AnalizadorDiscrepancias`: supply-set comparison

Supply entries reaching the analyzer are the serialized extractor records:
the `nombre` key holds a string when present, and the `cantidad` key — when
present at all — holds an integer or JSON `null` (so neither of the code's
sentinel strings `N/A` and `Ausente` can collide with a stored value). -/

inductive QVal where
  | qint (n : ℤ) : QVal
  | qnull : QVal
deriving DecidableEq, Repr

/-- A quantity as seen inside `comparar_insumos`: a stored value or the
`'N/A'` default supplied by `insumo.get('cantidad', 'N/A')`. -/
inductive CVal where
  | qv (v : QVal) : CVal
  | qna : CVal
deriving DecidableEq, Repr

structure InsumoDict where
  nombre : Option Str := none
  cantidad : Option QVal := none
deriving DecidableEq, Repr

def insumoGetCant (i : InsumoDict) : CVal :=
  match i.cantidad with
  | some v => .qv v
  | none => .qna

def cvalToStr : CVal → Str
  | .qv (.qint n) => intToStr n
  | .qv .qnull => txt "None"
  | .qna => txt "N/A"

def cvalOptToStr : Option CVal → Str
  | some c => cvalToStr c
  | none => txt "Ausente"

def sinonimos_insumos : List (Str × List Str) :=
  [(txt "cateter", [txt "cateter", txt "sonda", txt "tubo"]),
   (txt "gasa", [txt "gasa", txt "compresa", txt "gasas"]),
   (txt "sutura", [txt "sutura", txt "hilo", txt "punto"]),
   (txt "bisturi", [txt "bisturi", txt "cuchilla", txt "escalpelo"]),
   (txt "aguja", [txt "aguja", txt "inyector", txt "puncion"])]

/-- Python substring prefix test. -/
def leadsWith : Str → Str → Bool
  | [], _ => true
  | _ :: _, [] => false
  | n :: ns, h :: hs => n = h && leadsWith ns hs

/-- Python `needle in hay` on strings. -/
def containsSub (needle : Str) : Str → Bool
  | [] => leadsWith needle []
  | h :: hs => leadsWith needle (h :: hs) || containsSub needle hs

def findSinonimo : List (Str × List Str) → Str → Option Str
  | [], _ => none
  | (base, vars) :: rest, nn =>
      if vars.any (fun v => containsSub v nn) then some base
      else findSinonimo rest nn

/-- Embedding of `AnalizadorDiscrepancias.normalizar_insumo`. -/
def normalizar_insumo (nombre : Str) : Str :=
  let nn := normalizar_texto nombre
  (findSinonimo sinonimos_insumos nn).getD nn

/-- Insertion-ordered dictionary update, as Python `result[nombre] = cantidad`. -/
def dictUpsert (d : List (Str × CVal)) (k : Str) (v : CVal) : List (Str × CVal) :=
  if d.any (fun p => decide (p.1 = k)) then
    d.map (fun p => if p.1 = k then (k, v) else p)
  else d ++ [(k, v)]

def dictLookup (d : List (Str × CVal)) (k : Str) : Option CVal :=
  (d.find? (fun p => decide (p.1 = k))).map (·.2)

def dictKeys (d : List (Str × CVal)) : List Str := d.map (·.1)

/-- The inner `extraer_nombres_cantidades` of `comparar_insumos`. -/
def extraer_nombres_cantidades (insumos : List InsumoDict) : List (Str × CVal) :=
  insumos.foldl (fun res i =>
    let nombre := normalizar_insumo (i.nombre.getD [])
    if nombre ≠ [] then dictUpsert res nombre (insumoGetCant i) else res) []

/-- Quantities of `n` present across the three source dictionaries
(`'Ausente'` placeholders filtered out, as in the source loop). -/
def cantidadesPresentes (d1 d2 d3 : List (Str × CVal)) (n : Str) : List CVal :=
  [dictLookup d1 n, dictLookup d2 n, dictLookup d3 n].filterMap id

/-- The union `todos_insumos` of the canonical names of the three built
dictionaries (a Python set, materialized in first-appearance order). -/
def todosInsumos (i1 i2 i3 : List InsumoDict) : List Str :=
  pyDedup (dictKeys (extraer_nombres_cantidades i1) ++
    dictKeys (extraer_nombres_cantidades i2) ++ dictKeys (extraer_nombres_cantidades i3))

/-- The `cantidades_presentes` of name `n` over the three source lists. -/
def presentesInsumo (i1 i2 i3 : List InsumoDict) (n : Str) : List CVal :=
  cantidadesPresentes (extraer_nombres_cantidades i1) (extraer_nombres_cantidades i2)
    (extraer_nombres_cantidades i3) n

/-- Embedding of `AnalizadorDiscrepancias.comparar_insumos`. -/
def comparar_insumos (i1 i2 i3 : List InsumoDict) : Bool × Str :=
  let ins1 := extraer_nombres_cantidades i1
  let ins2 := extraer_nombres_cantidades i2
  let ins3 := extraer_nombres_cantidades i3
  let todos := todosInsumos i1 i2 i3
  if todos = [] then (false, txt "No se encontraron insumos en ningún documento")
  else
    let pres := cantidadesPresentes ins1 ins2 ins3
    let discrepancias := (todos.filter (fun n => decide (2 ≤ (pyDedup (pres n)).length))).map
      (fun n => n ++ txt " - T1:" ++ cvalOptToStr (dictLookup ins1 n) ++
        txt ", T2:" ++ cvalOptToStr (dictLookup ins2 n) ++
        txt ", T3:" ++ cvalOptToStr (dictLookup ins3 n))
    let coincidencias := (todos.filter (fun n =>
        decide ((pyDedup (pres n)).length ≤ 1 ∧ pres n ≠ []))).map
      (fun n => n ++ txt ": " ++ cvalToStr ((pres n).headD .qna))
    if discrepancias = [] then
      (true, txt "Insumos coinciden: " ++ joinSep (txt "; ") (coincidencias.take 3) ++
        (if coincidencias.length > 3 then txt "..." else []))
    else
      (false, txt "Discrepancias: " ++ joinSep (txt "; ") (discrepancias.take 2) ++
        (if discrepancias.length > 2 then txt "..." else []))

/-! ## Embedding of `AnalizadorDiscrepancias`: traceability, classification, aggregation -/

/-- The `etiquetas_trazabilidad` sub-dictionary of a type-1 result. -/
structure Traz where
  tiene_referencias : Option Bool := none
  tiene_lotes : Option Bool := none
  tiene_udi : Option Bool := none
  tiene_fechas_vencimiento : Option Bool := none
deriving DecidableEq, Repr

def Traz.isEmptyDict (t : Traz) : Bool :=
  t.tiene_referencias.isNone && t.tiene_lotes.isNone &&
  t.tiene_udi.isNone && t.tiene_fechas_vencimiento.isNone

/-- An extractor result record as consumed by `procesar_resultados`, in the
total fragment where every *present* key holds a well-typed, non-null value:
`none` stands for an absent key only.  The source distinguishes a present
key holding JSON `null` from an absent key and can raise on the former
(`len(None)`), which `ResultadoJson` and `procesar_resultados_chk` below
model. -/
structure Resultado where
  fecha_reporte : Option Str := none
  nombre_paciente : Option Str := none
  datos_procedimiento : Option Str := none
  medico_responsable : Option Str := none
  cirujano : Option Str := none
  ciudad_lugar : Option Str := none
  insumos_utilizados : Option (List InsumoDict) := none
  insumos_mencionados : Option (List InsumoDict) := none
  etiquetas_trazabilidad : Option Traz := none
deriving DecidableEq, Repr

/-- Python truthiness of the result dictionary (`if not resultado_tipo1`). -/
def Resultado.isEmptyDict (r : Resultado) : Bool :=
  r.fecha_reporte.isNone && r.nombre_paciente.isNone &&
  r.datos_procedimiento.isNone && r.medico_responsable.isNone &&
  r.cirujano.isNone && r.ciudad_lugar.isNone &&
  r.insumos_utilizados.isNone && r.insumos_mencionados.isNone &&
  r.etiquetas_trazabilidad.isNone

/-- Embedding of `AnalizadorDiscrepancias.analizar_trazabilidad`. -/
def analizar_trazabilidad (r : Resultado) : Bool × Str :=
  if r.isEmptyDict then (false, txt "No hay datos del Tipo 1 (Interno)")
  else
    let traz := r.etiquetas_trazabilidad.getD {}
    if traz.isEmptyDict then (false, txt "No se encontraron datos de trazabilidad")
    else
      let elementos : List (Str × Bool) :=
        [(txt "referencias", traz.tiene_referencias.getD false),
         (txt "lotes", traz.tiene_lotes.getD false),
         (txt "udi", traz.tiene_udi.getD false),
         (txt "fechas_venc", traz.tiene_fechas_vencimiento.getD false)]
      let presentes := (elementos.filter (·.2)).map (·.1)
      let ausentes := (elementos.filter (fun p => !p.2)).map (·.1)
      if 3 ≤ presentes.length then
        (true, txt "Trazabilidad completa: " ++ joinSep (txt ", ") presentes)
      else if 1 ≤ presentes.length then
        (false, txt "Trazabilidad parcial. Presente: " ++ joinSep (txt ", ") presentes ++
          txt ". Falta: " ++ joinSep (txt ", ") ausentes)
      else (false, txt "Sin datos de trazabilidad")

structure DiscrepanciaItem where
  campo : Str
  tipo_anexo1 : Str
  tipo_anexo2 : Str
  tipo_anexo3 : Str
  coincide : Bool
  observaciones : Str
  criticidad : Str
deriving DecidableEq, Repr

/-- The truncated display of `datos_procedimiento`
(`value[:50] + '...' if len > 50 else value-or-N/A`) for a record whose
`datos_procedimiento` key, when present, holds a string.  When the key is
present with `null` the source raises `TypeError` at `len(None)` instead of
reaching this computation; that error path is modelled by
`procesar_resultados_chk`. -/
def truncProc (r : Resultado) : Str :=
  if (r.datos_procedimiento.getD []).length > 50 then
    (r.datos_procedimiento.getD (txt "N/A")).take 50 ++ txt "..."
  else r.datos_procedimiento.getD (txt "N/A")

/-- Embedding of `AnalizadorDiscrepancias.procesar_resultados`: the fixed, ordered
sequence of seven field comparisons. -/
def procesar_resultados (r1 r2 r3 : Resultado) : List DiscrepanciaItem :=
  let fecha := comparar_fechas (r1.fecha_reporte.getD []) (r2.fecha_reporte.getD [])
    (r3.fecha_reporte.getD [])
  let paciente := comparar_nombres (r1.nombre_paciente.getD []) (r2.nombre_paciente.getD [])
    (r3.nombre_paciente.getD [])
  let proc := comparar_nombres (r1.datos_procedimiento.getD []) (r2.datos_procedimiento.getD [])
    (r3.datos_procedimiento.getD [])
  let medico := comparar_nombres (r1.medico_responsable.getD []) (r2.cirujano.getD [])
    (r3.medico_responsable.getD [])
  let lugar := comparar_nombres (r1.ciudad_lugar.getD []) (r2.ciudad_lugar.getD [])
    (r3.ciudad_lugar.getD [])
  let insumos := comparar_insumos (r1.insumos_utilizados.getD []) (r2.insumos_utilizados.getD [])
    (r3.insumos_mencionados.getD [])
  let traz := analizar_trazabilidad r1
  [{ campo := txt "Fecha de cirugía/reporte",
     tipo_anexo1 := r1.fecha_reporte.getD (txt "N/A"),
     tipo_anexo2 := r2.fecha_reporte.getD (txt "N/A"),
     tipo_anexo3 := r3.fecha_reporte.getD (txt "N/A"),
     coincide := fecha.1, observaciones := fecha.2,
     criticidad := if !fecha.1 then txt "ALTA" else txt "BAJA" },
   { campo := txt "Datos del paciente",
     tipo_anexo1 := r1.nombre_paciente.getD (txt "N/A"),
     tipo_anexo2 := r2.nombre_paciente.getD (txt "N/A"),
     tipo_anexo3 := r3.nombre_paciente.getD (txt "N/A"),
     coincide := paciente.1, observaciones := paciente.2,
     criticidad := if !paciente.1 then txt "ALTA" else txt "BAJA" },
   { campo := txt "Datos del procedimiento",
     tipo_anexo1 := truncProc r1,
     tipo_anexo2 := truncProc r2,
     tipo_anexo3 := truncProc r3,
     coincide := proc.1, observaciones := proc.2,
     criticidad := if !proc.1 then txt "MEDIA" else txt "BAJA" },
   { campo := txt "Médico responsable",
     tipo_anexo1 := r1.medico_responsable.getD (txt "N/A"),
     tipo_anexo2 := r2.cirujano.getD (txt "N/A"),
     tipo_anexo3 := r3.medico_responsable.getD (txt "N/A"),
     coincide := medico.1, observaciones := medico.2,
     criticidad := if !medico.1 then txt "MEDIA" else txt "BAJA" },
   { campo := txt "Lugar o ciudad",
     tipo_anexo1 := r1.ciudad_lugar.getD (txt "N/A"),
     tipo_anexo2 := r2.ciudad_lugar.getD (txt "N/A"),
     tipo_anexo3 := r3.ciudad_lugar.getD (txt "N/A"),
     coincide := lugar.1, observaciones := lugar.2,
     criticidad := txt "BAJA" },
   { campo := txt "Insumos utilizados",
     tipo_anexo1 := natToStr (r1.insumos_utilizados.getD []).length ++ txt " insumos",
     tipo_anexo2 := natToStr (r2.insumos_utilizados.getD []).length ++ txt " insumos",
     tipo_anexo3 := natToStr (r3.insumos_mencionados.getD []).length ++ txt " insumos",
     coincide := insumos.1, observaciones := insumos.2,
     criticidad := if !insumos.1 then txt "ALTA" else txt "BAJA" },
   { campo := txt "Trazabilidad (REF/LOT)",
     tipo_anexo1 := if !r1.isEmptyDict then txt "Evaluado" else txt "N/A",
     tipo_anexo2 := txt "No aplica",
     tipo_anexo3 := txt "No aplica",
     coincide := traz.1, observaciones := traz.2,
     criticidad := if !traz.1 then txt "ALTA" else txt "BAJA" }]

/-- The one exception `procesar_resultados` can propagate:
`TypeError: object of type 'NoneType' has no len()`. -/
inductive PyError where
  | typeErrorLenOfNone : PyError
deriving DecidableEq, Repr

/-- A serialized result record as `json.loads` of an extractor's dump
produces it: each key may be absent (`none`), present with JSON `null`
(`some none`), or present with a value (`some (some v)`) — the three cases
`dict.get` distinguishes. -/
structure ResultadoJson where
  fecha_reporte : Option (Option Str) := none
  nombre_paciente : Option (Option Str) := none
  datos_procedimiento : Option (Option Str) := none
  medico_responsable : Option (Option Str) := none
  cirujano : Option (Option Str) := none
  ciudad_lugar : Option (Option Str) := none
  insumos_utilizados : Option (Option (List InsumoDict)) := none
  insumos_mencionados : Option (Option (List InsumoDict)) := none
  etiquetas_trazabilidad : Option (Option Traz) := none
deriving DecidableEq, Repr

/-- No key of the record is present with value `null`. -/
def ResultadoJson.noNulls (r : ResultadoJson) : Prop :=
  r.fecha_reporte ≠ some none ∧ r.nombre_paciente ≠ some none ∧
  r.datos_procedimiento ≠ some none ∧ r.medico_responsable ≠ some none ∧
  r.cirujano ≠ some none ∧ r.ciudad_lugar ≠ some none ∧
  r.insumos_utilizados ≠ some none ∧ r.insumos_mencionados ≠ some none ∧
  r.etiquetas_trazabilidad ≠ some none

/-- Collapse of a serialized record into the total fragment (`null` keys
collapse to absent; on a `noNulls` record this is the exact identification). -/
def ResultadoJson.toResultado (r : ResultadoJson) : Resultado :=
  { fecha_reporte := r.fecha_reporte.join,
    nombre_paciente := r.nombre_paciente.join,
    datos_procedimiento := r.datos_procedimiento.join,
    medico_responsable := r.medico_responsable.join,
    cirujano := r.cirujano.join,
    ciudad_lugar := r.ciudad_lugar.join,
    insumos_utilizados := r.insumos_utilizados.join,
    insumos_mencionados := r.insumos_mencionados.join,
    etiquetas_trazabilidad := r.etiquetas_trazabilidad.join }

/-- Embedding of `procesar_resultados` over serialized records, with the
source's `TypeError` paths made explicit in the source's evaluation order:
the third item evaluates `len(resultado.get('datos_procedimiento', ''))`
and the sixth `len(resultado.get('insumos_utilizados', []))`
(`insumos_mencionados` for the third source), and `len(None)` raises when
the key is present with `null`.  No other expression of the function calls
a method on a possibly-`null` value, and every `get` result that influences
a comparison is read through truthiness tests, under which `null` and the
absent-key default coincide; the `.ok` branch therefore returns
`procesar_resultados` on the collapsed record.  A remaining `null` key
would make the source store the `None` itself in the item's display columns
where the collapse shows the `N/A` default, so the agreement with the
source is stated (in the C2 theorem) for `noNulls` records, where the
identification is exact. -/
def procesar_resultados_chk (r1 r2 r3 : ResultadoJson) :
    Except PyError (List DiscrepanciaItem) :=
  if r1.datos_procedimiento = some none then .error .typeErrorLenOfNone
  else if r2.datos_procedimiento = some none then .error .typeErrorLenOfNone
  else if r3.datos_procedimiento = some none then .error .typeErrorLenOfNone
  else if r1.insumos_utilizados = some none then .error .typeErrorLenOfNone
  else if r2.insumos_utilizados = some none then .error .typeErrorLenOfNone
  else if r3.insumos_mencionados = some none then .error .typeErrorLenOfNone
  else .ok (procesar_resultados r1.toResultado r2.toResultado r3.toResultado)

/-- The serialized record the pipeline itself produces when the description
extractor finds no procedure text: the `datos_procedimiento` key is present
and holds `null`. -/
def rNullProc : ResultadoJson := { datos_procedimiento := some none }

structure ResumenEjecutivo where
  total_campos_evaluados : ℕ
  campos_coincidentes : ℕ
  campos_con_discrepancias : ℕ
  porcentaje_coincidencia : ℚ
  discrepancias_por_criticidad : List (Str × ℕ)
  requiere_revision_manual : Bool
  recomendacion : Str
deriving DecidableEq, Repr

/-- One `criticidad_counts[...] = criticidad_counts.get(..., 0) + 1` step. -/
def critUpsert (d : List (Str × ℕ)) (k : Str) : List (Str × ℕ) :=
  if d.any (fun p => decide (p.1 = k)) then
    d.map (fun p => if p.1 = k then (k, p.2 + 1) else p)
  else d ++ [(k, 1)]

def criticidad_counts (l : List DiscrepanciaItem) : List (Str × ℕ) :=
  l.foldl (fun acc d => if !d.coincide then critUpsert acc d.criticidad else acc) []

def countLookup (d : List (Str × ℕ)) (k : Str) : ℕ :=
  ((d.find? (fun p => decide (p.1 = k))).map (·.2)).getD 0

/-- Python `round(x, 2)` (half-up model; the half-even difference is only
reachable at exact ties, which the values below never produce). -/
def round2 (q : ℚ) : ℚ := ((Int.floor (q * 100 + 1/2) : ℤ) : ℚ) / 100

/-- Embedding of `AnalizadorDiscrepancias._generar_recomendacion`. -/
def generar_recomendacion (l : List DiscrepanciaItem) : Str :=
  let alta := l.filter (fun d => decide (d.criticidad = txt "ALTA") && !d.coincide)
  if 3 ≤ alta.length then txt "REVISION URGENTE: Múltiples discrepancias críticas detectadas"
  else if 1 ≤ alta.length then txt "REVISION NECESARIA: Discrepancias críticas en campos importantes"
  else txt "REVISION OPCIONAL: Solo discrepancias menores detectadas"

/-- Embedding of `AnalizadorDiscrepancias.generar_resumen_ejecutivo`. -/
def generar_resumen_ejecutivo (l : List DiscrepanciaItem) : ResumenEjecutivo :=
  let total := l.length
  let coinc := l.countP (fun d => d.coincide)
  { total_campos_evaluados := total,
    campos_coincidentes := coinc,
    campos_con_discrepancias := total - coinc,
    porcentaje_coincidencia := round2 ((coinc : ℚ) / (total : ℚ) * 100),
    discrepancias_por_criticidad := criticidad_counts l,
    requiere_revision_manual := l.any (fun d => decide (d.criticidad = txt "ALTA") && !d.coincide),
    recomendacion := generar_recomendacion l }

/-! ## Embedding of `smart_ocr.py`: shared text helpers -/

/-- Python `text.split('\n')` (keeps empty pieces; the empty string yields
one empty piece). -/
def pySplitLinesGo : Str → Str → List Str
  | acc, [] => [acc.reverse]
  | acc, c :: rest =>
      if c = '\n' then acc.reverse :: pySplitLinesGo [] rest
      else pySplitLinesGo (c :: acc) rest

def pySplitLines (s : Str) : List Str := pySplitLinesGo [] s

/-- Python `str.split()` with no separator (whitespace runs, empties dropped). -/
def pySplitWsGo : Str → Str → List Str
  | acc, [] => if acc = [] then [] else [acc.reverse]
  | acc, c :: rest =>
      if iws c then
        if acc = [] then pySplitWsGo [] rest else acc.reverse :: pySplitWsGo [] rest
      else pySplitWsGo (c :: acc) rest

def pySplitWs (s : Str) : List Str := pySplitWsGo [] s

def pyCapitalize : Str → Str
  | [] => []
  | c :: rest => pyCharUpper c :: pyLower rest

def pyIsDigitStr (s : Str) : Bool := !s.isEmpty && s.all Char.isDigit

def parseNat (s : Str) : ℕ := s.foldl (fun acc c => acc * 10 + (c.toNat - '0'.toNat)) 0

/-! Character classes of the extraction patterns. -/

def esLetra (c : Char) : Bool :=
  decide ('A' ≤ c ∧ c ≤ 'Z') || decide ('a' ≤ c ∧ c ≤ 'z') ||
  c = 'á' || c = 'é' || c = 'í' || c = 'ó' || c = 'ú' || c = 'ñ' || c = 'Ñ'

/-- Class `[A-Za-záéíóúñÑ\s]`. -/
def esNombreChar (c : Char) : Bool := esLetra c || iws c

/-- Class `[A-Za-záéíóúñÑ\s\.]`. -/
def esNombreDotChar (c : Char) : Bool := esNombreChar c || c = '.'

/-- Class `[:\s]`. -/
def reColonWs : RE := .ch (fun c => c = ':' || iws c)

/-- Class `[^\n]`. -/
def reNotNl : RE := .ch (fun c => !(c = '\n'))

/-- A class under `re.IGNORECASE`: the character matches if it or either of
its case images belongs to the base class. -/
def reClsCI (base : Char → Bool) : RE :=
  .ch (fun c => base c || base (pyCharLower c) || base (pyCharUpper c))

/-! ## Embedding of `MedicalTextProcessor.clean_text` -/

/-- The ordered OCR-misreading correction table, each entry applied with
`re.sub(..., flags=re.IGNORECASE)` over the whole text. -/
def correcciones : List (RE × Str) :=
  [(reSeq [reLit true "Torn", rePlus reS, reLit true "enceçálico"], txt "Tornillo encefálico"),
   (reSeq [reLit true "Tôrn", rePlus reS, reLit true "encefálico"], txt "Tornillo encefálico"),
   (reLit true "curvanervios", txt "CurvaNerv"),
   (reLit true "Especialeta", txt "Especialista"),
   (reLit true "Procedmeo", txt "Procedimiento"),
   (reLit true "Fecho", txt "Fecha"),
   (reLit true "Remitión", txt "Remisión")]

def clean_text (t : Str) : Str :=
  correcciones.foldl (fun acc pr => reSub pr.1 pr.2 acc) t

/-! ## Embedding of `smart_ocr.py`: the pydantic output records -/

structure InsumoInterno where
  nombre : Option Str := none
  cantidad : Option ℕ := none
  referencia_ref : Option Str := none
  lote_lot : Option Str := none
  fecha_vencimiento : Option Str := none
  etiqueta_presente : Option Bool := none
deriving DecidableEq, Repr

structure InsumoHospital where
  nombre : Option Str := none
  cantidad : Option ℕ := none
  observaciones : Option Str := none
deriving DecidableEq, Repr

structure InsumoDescripcion where
  nombre : Option Str := none
  variantes_denominacion : List Str := []
  mencion_trazabilidad : Option Bool := none
deriving DecidableEq, Repr

/-- The `Dict[str, bool]` produced by `_check_traceability` (all four keys
always written). -/
structure TrazFlags where
  tiene_referencias : Bool := false
  tiene_lotes : Bool := false
  tiene_udi : Bool := false
  tiene_fechas_vencimiento : Bool := false
deriving DecidableEq, Repr

structure ReporteInternoQuirurgico where
  tipo_documento : Str := txt "REPORTE DE GASTO QUIRÚRGICO (INTERNO)"
  nombre_paciente : Option Str := none
  fecha_reporte : Option Str := none
  datos_procedimiento : Option Str := none
  medico_responsable : Option Str := none
  insumos_utilizados : List InsumoInterno := []
  etiquetas_trazabilidad : TrazFlags := {}
  ciudad_lugar : Option Str := none
  firmas_responsables : Option Str := none
deriving DecidableEq, Repr

/-- The free-form clinical/administrative map of the hospital record
(three conditionally written keys). -/
structure DatosClinicos where
  asegurador : Option Str := none
  numero_remision : Option Str := none
  codigo_reporte : Option Str := none
deriving DecidableEq, Repr

structure ReporteHospitalQuirurgico where
  tipo_documento : Str := txt "REPORTE DE GASTO QUIRÚRGICO (HOSPITAL)"
  nombre_paciente : Option Str := none
  fecha_reporte : Option Str := none
  datos_procedimiento : Option Str := none
  cirujano : Option Str := none
  insumos_utilizados : List InsumoHospital := []
  ciudad_lugar : Option Str := none
  datos_clinicos_administrativos : DatosClinicos := {}
  nota_trazabilidad : Str := txt "Generalmente no incluye REF/LOT o etiquetas"
deriving DecidableEq, Repr

/-- The traceability-mention map of the description record. -/
structure TrazMentions where
  menciona_ref : Option Bool := none
  refs_encontradas : Option (List Str) := none
  menciona_lot : Option Bool := none
  lots_encontrados : Option (List Str) := none
  menciona_etiquetas : Option Bool := none
  menciona_trazabilidad : Option Bool := none
deriving DecidableEq, Repr

structure DatosComplementarios where
  fecha : Option Str := none
  paciente : Option Str := none
  medico_tratante : Option Str := none
  especialidad : Option Str := none
  codigos_procedimiento : Option (List Str) := none
  tipo_anestesia : Option Str := none
  centro_medico : Option Str := none
deriving DecidableEq, Repr

structure DescripcionQuirurgica where
  tipo_documento : Str := txt "DESCRIPCIÓN QUIRÚRGICA (DOCTOR)"
  descripcion_procedimiento : Option Str := none
  insumos_mencionados : List InsumoDescripcion := []
  referencias_trazabilidad : TrazMentions := {}
  datos_complementarios : DatosComplementarios := {}
deriving DecidableEq, Repr

/-! ## Shared field-extraction pattern lists -/

/-- Patient patterns `por\s+(...)(?:\n|\d{10})`, `Paciente[:\s]+(...)(?:\n|$)`,
`Cliente[:\s]+(...)(?:\n|$)`; the flag selects `re.MULTILINE` for `$`
(a flag the extraction calls pass and the `_is_patient_name` calls omit). -/
def patsPaciente (ml : Bool) : List RE :=
  [reSeq [reLit true "por", rePlus reS, .grp (rePlusLazy (reClsCI esNombreChar)),
     .alt (reChar false '\n') (reRep reD 10)],
   reSeq [reLit true "Paciente", rePlus reColonWs, .grp (rePlusLazy (reClsCI esNombreChar)),
     .alt (reChar false '\n') (.eol ml)],
   reSeq [reLit true "Cliente", rePlus reColonWs, .grp (rePlusLazy (reClsCI esNombreChar)),
     .alt (reChar false '\n') (.eol ml)]]

/-- The name-accepting loop of `_extract_patient_name`: first pattern whose
stripped group is longer than 3 and not purely numeric wins. -/
def nameLoop (t : Str) : List RE → Option Str
  | [] => none
  | p :: rest =>
      match reFind p t with
      | some m =>
          let name := pyStrip ((m.group1 t).getD [])
          if name.length > 3 && !pyIsDigitStr name then some name
          else nameLoop t rest
      | none => nameLoop t rest

/-- Date patterns of `_extract_date` (no flags): the labelled
`Fecha` form with a slash-or-dash separated `{1,2}{1,2}{2,4}`-digit date
group, then the bare such form, then the slash-only 4-digit-year form. -/
def reSlashDash : RE := .ch (fun c => c = '-' || c = '/')

def patFechaCore : RE :=
  reSeq [reRange reD 1 2, reSlashDash, reRange reD 1 2, reSlashDash, reRange reD 2 4]

def patsFechaExtract : List RE :=
  [reSeq [reLit false "Fecha", rePlus reColonWs, .grp patFechaCore],
   .grp patFechaCore,
   .grp (reSeq [reRange reD 1 2, reChar false '/', reRange reD 1 2, reChar false '/',
     reRep reD 4])]

/-- First match wins, `group(1)` returned unstripped (as `_extract_date`). -/
def dateLoop (t : Str) : List RE → Option Str
  | [] => none
  | p :: rest =>
      match reFind p t with
      | some m => some ((m.group1 t).getD [])
      | none => dateLoop t rest

/-- Procedure patterns (`re.IGNORECASE`): `Procedimiento[:\s]+([^\n]+)`,
`Osteosíntesis[^\n]*`, `Procedmeo[:\s]+([^\n]+)`. -/
def patsProcedimiento : List RE :=
  [reSeq [reLit true "Procedimiento", rePlus reColonWs, .grp (rePlus reNotNl)],
   reSeq [reLit true "Osteosíntesis", .star reNotNl false],
   reSeq [reLit true "Procedmeo", rePlus reColonWs, .grp (rePlus reNotNl)]]

/-- First match wins, whole match (`group(0)`) stripped. -/
def procLoop (t : Str) : List RE → Option Str
  | [] => none
  | p :: rest =>
      match reFind p t with
      | some m => some (pyStrip (m.group0 t))
      | none => procLoop t rest

/-- Location patterns (`re.IGNORECASE`): the city alternation,
`slidad\s+([A-Za-záéíóúñÑ]+)`, `Ciudad[:\s]+([A-Za-záéíóúñÑ]+)`. -/
def patsLugar : List RE :=
  [.grp (reAlts [reLit true "Bucaramanga", reLit true "Bogotá", reLit true "Medellín",
     reLit true "Cali", reLit true "Barranquilla"]),
   reSeq [reLit true "slidad", rePlus reS, .grp (rePlus (reClsCI esLetra))],
   reSeq [reLit true "Ciudad", rePlus reColonWs, .grp (rePlus (reClsCI esLetra))]]

/-- First match wins, `group(1)` returned unstripped (as `_extract_location`,
whose patterns all carry a group). -/
def locLoop (t : Str) : List RE → Option Str
  | [] => none
  | p :: rest =>
      match reFind p t with
      | some m => some ((m.group1 t).getD [])
      | none => locLoop t rest

/-- First match wins, `group(1)` stripped. -/
def grp1StripLoop (t : Str) : List RE → Option Str
  | [] => none
  | p :: rest =>
      match reFind p t with
      | some m => some (pyStrip ((m.group1 t).getD []))
      | none => grp1StripLoop t rest

/-! ## Embedding of `ReporteInternoExtractor` -/

/-- Reference-code pattern `(\d{5,}[-\d]*)`. -/
def patRefCode : RE :=
  .grp (reSeq [reAtLeast reD 5, .star (.ch (fun c => c = '-' || c.isDigit)) false])

/-- Internal description pattern `(Tornillo|Placa|Pin|Torn)[^0-9]*`
(`re.IGNORECASE`). -/
def patDescInterno : RE :=
  reSeq [.grp (reAlts [reLit true "Tornillo", reLit true "Placa", reLit true "Pin",
    reLit true "Torn"]), .star (.ch (fun c => !c.isDigit)) false]

/-- Leading-quantity pattern `^(\d+)`. -/
def patQty : RE := reSeq [.bos, .grp (rePlus reD)]

/-- Lot pattern `LOT[:\s]*(\d+)` (`re.IGNORECASE`). -/
def patLotGrp : RE := reSeq [reLit true "LOT", .star reColonWs false, .grp (rePlus reD)]

/-- Expiry pattern `(\d{4}-\d{2}-\d{2})`. -/
def patVencGrp : RE :=
  .grp (reSeq [reRep reD 4, reChar false '-', reRep reD 2, reChar false '-', reRep reD 2])

/-- Search the window of lines `max(0, i-2) .. min(len, i+3)` for the first
line matching `pat`, returning the match together with its line. -/
def windowSearchGo (pat : RE) (lines : List Str) : List ℕ → Option (ReMatchRes × Str)
  | [] => none
  | j :: rest =>
      let lj := lines.getD j []
      match reFind pat lj with
      | some m => some (m, lj)
      | none => windowSearchGo pat lines rest

def windowSearch (pat : RE) (lines : List Str) (i : ℕ) : Option (ReMatchRes × Str) :=
  windowSearchGo pat lines (List.range' (i - 2) (min lines.length (i + 3) - (i - 2)))

/-- One iteration of `_extract_supplies_with_traceability`: a line holding a
reference-code token yields a supply, appended only under the final
`if supply.referencia_ref` truthiness guard. -/
def buildInsumoInterno (lines : List Str) (i : ℕ) (line : Str) : Option InsumoInterno :=
  match reFind patRefCode line with
  | none => none
  | some m =>
      let ref := (m.group1 line).getD []
      let nombre :=
        match reFind patDescInterno line with
        | some dm => some (pyStrip (dm.group0 line))
        | none => none
      let stripped := pyStrip line
      let cantidad :=
        match reFind patQty stripped with
        | some qm =>
            let n := parseNat ((qm.group1 stripped).getD [])
            if n < 1000 then some n else none
        | none => none
      let lote := (windowSearch patLotGrp lines i).bind (fun p => p.1.group1 p.2)
      let fven := (windowSearch patVencGrp lines i).bind (fun p => p.1.group1 p.2)
      if ref ≠ [] then
        some { nombre := nombre, cantidad := cantidad, referencia_ref := some ref,
               lote_lot := lote, fecha_vencimiento := fven,
               etiqueta_presente := some (lote.isSome || fven.isSome) }
      else none

def extract_supplies_with_traceability (t : Str) : List InsumoInterno :=
  let lines := pySplitLines t
  lines.enum.filterMap (fun p => buildInsumoInterno lines p.1 p.2)

/-- Keyword patterns of `_check_traceability` (`REF[:\s]*\d+` etc.). -/
def patKwNum (kw : String) : RE := reSeq [reLit true kw, .star reColonWs false, rePlus reD]

def patVencNoGrp : RE :=
  reSeq [reRep reD 4, reChar false '-', reRep reD 2, reChar false '-', reRep reD 2]

def check_traceability (t : Str) : TrazFlags :=
  { tiene_referencias := (reFind (patKwNum "REF") t).isSome,
    tiene_lotes := (reFind (patKwNum "LOT") t).isSome,
    tiene_udi := (reFind (patKwNum "UDI") t).isSome,
    tiene_fechas_vencimiento := (reFind patVencNoGrp t).isSome }

/-- Internal doctor patterns (`re.IGNORECASE`, no `re.MULTILINE`). -/
def patsMedicoInterno : List RE :=
  [reSeq [reLit true "Especialista", rePlus reColonWs,
     .grp (reSeq [reLit true "Dr", reOpt (reChar false '.'), .star reS false,
       rePlusLazy (reClsCI esNombreChar)]),
     .alt (reChar false '\n') (.eol false)],
   reSeq [.grp (reSeq [reLit true "Dr", reOpt (reChar false '.'), .star reS false,
       rePlusLazy (reClsCI esNombreChar)]),
     .alt (reChar false '\n') (reLit true "Procedimiento")],
   reSeq [reLit true "Médico", rePlus reColonWs, .grp (rePlusLazy (reClsCI esNombreChar)),
     .alt (reChar false '\n') (.eol false)]]

/-- Signature patterns (`re.IGNORECASE`). -/
def patsFirmas : List RE :=
  [reSeq [reLit true "Firma", reOpt (reChar true 'y'), rePlus reS, .grp (rePlus reNotNl)],
   reSeq [reLit true "Firma", rePlus reColonWs, .grp (rePlus reNotNl)],
   reSeq [reLit true "Instrumentador", rePlus reColonWs, .grp (rePlus reNotNl)]]

/-- Embedding of `ReporteInternoExtractor.extract`. -/
def reporteInterno_extract (t : Str) : ReporteInternoQuirurgico :=
  let ct := clean_text t
  { nombre_paciente := nameLoop ct (patsPaciente true),
    fecha_reporte := dateLoop ct patsFechaExtract,
    datos_procedimiento := procLoop ct patsProcedimiento,
    medico_responsable := grp1StripLoop ct patsMedicoInterno,
    insumos_utilizados := extract_supplies_with_traceability ct,
    etiquetas_trazabilidad := check_traceability ct,
    ciudad_lugar := locLoop ct patsLugar,
    firmas_responsables := grp1StripLoop ct patsFirmas }

/-! ## Embedding of `ReporteHospitalExtractor` -/

/-- The only way `re` can fail inside this code base: compiling the fifth
surgeon pattern, whose negative lookbehind contains the variable-width
piece `\w` repeated between 1 and 10 times, raises
`re.error: look-behind requires fixed-width pattern`. -/
inductive ReError where
  | lookbehindNotFixedWidth : ReError
deriving DecidableEq, Repr

instance {ε α : Type} [DecidableEq ε] [DecidableEq α] : DecidableEq (Except ε α) := fun a b =>
  match a, b with
  | .error e, .error f => decidable_of_iff (e = f) ⟨fun h => h ▸ rfl, fun h => by injection h⟩
  | .error _, .ok _ => .isFalse (fun h => Except.noConfusion h)
  | .ok _, .error _ => .isFalse (fun h => Except.noConfusion h)
  | .ok x, .ok y => decidable_of_iff (x = y) ⟨fun h => h ▸ rfl, fun h => by injection h⟩

/-- Hospital patient-name loop: as the internal one plus
`' '.join(word.capitalize() for word in name.split())`. -/
def nameLoopCap (t : Str) : List RE → Option Str
  | [] => none
  | p :: rest =>
      match reFind p t with
      | some m =>
          let name := pyStrip ((m.group1 t).getD [])
          if name.length > 3 && !pyIsDigitStr name then
            some (joinSep (txt " ") ((pySplitWs name).map pyCapitalize))
          else nameLoopCap t rest
      | none => nameLoopCap t rest

/-- Worker of `_is_patient_name`: try the patient patterns in order; a
matching pattern whose stripped group overlaps the candidate (substring
containment either direction, case-folded) confirms. -/
def isPatientGo (doctor : Str) (t : Str) : List RE → Bool
  | [] => false
  | p :: rest =>
      match reFind p t with
      | some m =>
          let pn := pyStrip ((m.group1 t).getD [])
          if containsSub (pyLower doctor) (pyLower pn) ||
             containsSub (pyLower pn) (pyLower doctor) then true
          else isPatientGo doctor t rest
      | none => isPatientGo doctor t rest

/-- Embedding of `ReporteHospitalExtractor._is_patient_name` (patient
patterns compiled with `re.IGNORECASE` only). -/
def is_patient_name (doctor : Str) (t : Str) : Bool :=
  isPatientGo doctor t (patsPaciente false)

/-- The four well-formed surgeon patterns (`re.IGNORECASE`); reaching the
fifth raises, which the `[]` case of the loop below models. -/
def patsCirujano : List RE :=
  [reSeq [reLit true "Cirujano", rePlus reColonWs, .grp (rePlusLazy (reClsCI esNombreDotChar)),
     .alt (reChar false '\n') (.eol false)],
   reSeq [reLit true "CIRUJANO", rePlus reColonWs, .grp (rePlusLazy (reClsCI esNombreDotChar)),
     .alt (reChar false '\n') (.eol false)],
   reSeq [reLit true "Especialista", rePlus reColonWs,
     .grp (reSeq [reLit true "Dr", reOpt (reChar false '.'), .star reS false,
       rePlusLazy (reClsCI esNombreChar)]),
     reAlts [reChar false '\n', reLit true "Procedimiento", .eol false]],
   reSeq [reLit true "Médico", rePlus reColonWs,
     .grp (reSeq [reLit true "Dr", reOpt (reChar false '.'), .star reS false,
       rePlusLazy (reClsCI esNombreChar)]),
     .alt (reChar false '\n') (.eol false)]]

/-- Embedding of `ReporteHospitalExtractor._extract_doctor`: an accepted candidate from
the first four patterns is returned; otherwise the loop reaches the fifth,
ill-formed pattern and the call raises. -/
def hospDoctorGo (t : Str) : List RE → Except ReError Str
  | [] => .error .lookbehindNotFixedWidth
  | p :: rest =>
      match reFind p t with
      | some m =>
          let dn := pyStrip ((m.group1 t).getD [])
          if dn.length > 3 && !is_patient_name dn t then .ok dn
          else hospDoctorGo t rest
      | none => hospDoctorGo t rest

def hospDoctor (t : Str) : Except ReError Str := hospDoctorGo t patsCirujano

/-- Keyword gate `(Tornillo|Placa|Pin|Torn)` of `_extract_supplies_basic`. -/
def patKwTPPT : RE :=
  .grp (reAlts [reLit true "Tornillo", reLit true "Placa", reLit true "Pin", reLit true "Torn"])

/-- Hospital description pattern `(Tornillo[^0-9]*|Placa[^0-9]*|Pin[^0-9]*)`. -/
def patDescHosp : RE :=
  .grp (reAlts [reSeq [reLit true "Tornillo", .star (.ch (fun c => !c.isDigit)) false],
    reSeq [reLit true "Placa", .star (.ch (fun c => !c.isDigit)) false],
    reSeq [reLit true "Pin", .star (.ch (fun c => !c.isDigit)) false]])

/-- Pattern `LOT|REF` (`re.IGNORECASE`). -/
def patLotRef : RE := .alt (reLit true "LOT") (reLit true "REF")

/-- One iteration of `_extract_supplies_basic`: appended only under the
final `if supply.nombre` truthiness guard. -/
def buildInsumoHospital (line : Str) : Option InsumoHospital :=
  if (reFind patKwTPPT line).isSome then
    let nombre :=
      match reFind patDescHosp line with
      | some dm => some (pyStrip (dm.group0 line))
      | none => none
    let stripped := pyStrip line
    let cantidad :=
      match reFind patQty stripped with
      | some qm =>
          let n := parseNat ((qm.group1 stripped).getD [])
          if n < 100 then some n else none
      | none => none
    let obs :=
      if (reFind patLotRef line).isSome then none
      else some (txt "Sin datos de trazabilidad")
    match nombre with
    | some nm =>
        if nm ≠ [] then
          some { nombre := some nm, cantidad := cantidad, observaciones := obs }
        else none
    | none => none
  else none

def extract_supplies_basic (t : Str) : List InsumoHospital :=
  (pySplitLines t).filterMap buildInsumoHospital

/-- Embedding of `ReporteHospitalExtractor._extract_clinical_data`. -/
def extract_clinical_data (t : Str) : DatosClinicos :=
  { asegurador :=
      match reFind (reSeq [reLit true "Asegurador", rePlus reColonWs,
          .grp (rePlus reNotNl)]) t with
      | some m => some (pyStrip ((m.group1 t).getD []))
      | none => none,
    numero_remision :=
      match reFind (reSeq [reLit true "Remisión", rePlus reColonWs,
          .grp (rePlus (.ch (fun c => esLetra c || c.isDigit || c = '_')))]) t with
      | some m => some ((m.group1 t).getD [])
      | none => none,
    codigo_reporte :=
      match reFind (reSeq [reLit true "Código", rePlus reColonWs,
          .grp (rePlus reNotNl)]) t with
      | some m => some (pyStrip ((m.group1 t).getD []))
      | none => none }

/-- Embedding of `ReporteHospitalExtractor.extract`: total except for the surgeon field,
whose ill-formed fifth pattern propagates `re.error` out of `extract`. -/
def reporteHospital_extract (t : Str) : Except ReError ReporteHospitalQuirurgico :=
  let ct := clean_text t
  match hospDoctor ct with
  | .error e => .error e
  | .ok cir =>
      .ok { nombre_paciente := nameLoopCap ct (patsPaciente true),
            fecha_reporte := dateLoop ct patsFechaExtract,
            datos_procedimiento := procLoop ct patsProcedimiento,
            cirujano := some cir,
            insumos_utilizados := extract_supplies_basic ct,
            ciudad_lugar := locLoop ct patsLugar,
            datos_clinicos_administrativos := extract_clinical_data ct }

/-! ## Embedding of `DescripcionQuirurgicaExtractor` -/

def medical_keywords : List Str :=
  [txt "osteosíntesis", txt "osteosintesis", txt "encefálica", txt "encefalica",
   txt "craneofacial", txt "fractura", txt "fracturas", txt "temporal", txt "parietal",
   txt "frontal", txt "fijación", txt "fijacion", txt "dispositivo", txt "dispositivos",
   txt "reducción", txt "reduccion", txt "cirugía", txt "cirugia", txt "quirúrgico",
   txt "quirurgico", txt "anestesia", txt "incisión", txt "incision", txt "sutura",
   txt "craneales", txt "maxilofacial", txt "neurocirugia", txt "neurocirugía"]

/-- Pattern `(T\d+|Cirujano\s+\d+|Pre-Quirúrgico|Post-Quirúrgico)`
(`re.IGNORECASE`). -/
def patTcode : RE :=
  .grp (reAlts [reSeq [reChar true 'T', rePlus reD],
    reSeq [reLit true "Cirujano", rePlus reS, rePlus reD],
    reLit true "Pre-Quirúrgico", reLit true "Post-Quirúrgico"])

/-- Embedding of `DescripcionQuirurgicaExtractor._extract_procedure_description`. -/
def descProcedure (t : Str) : Option Str :=
  let selected := (pySplitLines t).filterMap (fun line =>
    let lc := pyStrip line
    if lc.length > 10 then
      if medical_keywords.any (fun kw => containsSub kw (pyLower lc)) then some lc
      else if (reFind patTcode lc).isSome then some lc
      else none
    else none)
  let uniq := pyDedup selected
  if uniq = [] then none else some (joinSep (txt "\n") uniq)

/-- The ordered `(pattern, canonical name)` table of
`_extract_mentioned_supplies` (all run with `re.IGNORECASE`). -/
def variantes : List (RE × Str) :=
  [(reSeq [reLit true "osteosintesis", rePlus reS, reLit true "encefalic",
      reOpt (reChar true 'a'), .star reS false, .star reNotNl false],
    txt "Osteosíntesis Encefálica"),
   (reSeq [reLit true "torn", .star (reClsCI (fun c => c = 'i' || c = 'l' || c = 'o')) false,
      .star reS false, reLit true "encefalic",
      reOpt (reClsCI (fun c => c = 'o' || c = 'a')), .star reNotNl false],
    txt "Tornillo Encefálico"),
   (reSeq [reLit true "placa", .star reS false, reLit true "curv",
      reOpt (reClsCI (fun c => c = 'a' || c = 'e')), reLit true "ner",
      reOpt (reChar true 'v'), .star reNotNl false],
    txt "Placa CurvaNerv"),
   (reSeq [reLit true "pin", .star reS false, reLit true "smartman", .star reNotNl false],
    txt "Pin Smartman"),
   (reSeq [reLit true "dispositivo", reOpt (reChar true 's'), rePlus reS, reLit true "de",
      rePlus reS, reLit true "fijaci", reClsCI (fun c => c = 'ó' || c = 'o'),
      reChar true 'n', .star reNotNl false],
    txt "Dispositivo de Fijación"),
   (reSeq [reLit true "dispositivo", reOpt (reChar true 's'), rePlus reS, reLit true "de",
      rePlus reS, reLit true "osteosintesis", .star reNotNl false],
    txt "Dispositivo de Osteosíntesis"),
   (reSeq [reLit true "fractura", reOpt (reChar true 's'), rePlus reS, .star reNotNl false],
    txt "Manejo de Fracturas"),
   (reSeq [reLit true "fijaci", reClsCI (fun c => c = 'ó' || c = 'o'), reChar true 'n',
      rePlus reS, .star reNotNl false],
    txt "Fijación Quirúrgica"),
   (reSeq [reLit true "reducci", reClsCI (fun c => c = 'ó' || c = 'o'), reChar true 'n',
      rePlus reS, .star reNotNl false],
    txt "Reducción Quirúrgica"),
   (reSeq [reLit true "craneofacial", .star reNotNl false], txt "Cirugía Craneofacial"),
   (reSeq [reLit true "maxilofacial", .star reNotNl false], txt "Cirugía Maxilofacial"),
   (reSeq [reLit true "temporal", .star reNotNl false, reLit true "fractura",
      .star reNotNl false], txt "Fractura Temporal"),
   (reSeq [reLit true "frontal", .star reNotNl false, reLit true "fractura",
      .star reNotNl false], txt "Fractura Frontal"),
   (reSeq [reLit true "parietal", .star reNotNl false, reLit true "fractura",
      .star reNotNl false], txt "Fractura Parietal"),
   (reSeq [reLit true "tornillo", reOpt (reChar true 's'), .star reNotNl false],
    txt "Tornillos"),
   (reSeq [reLit true "placa", reOpt (reChar true 's'), .star reNotNl false], txt "Placas"),
   (reSeq [reLit true "pin", reOpt (reClsCI (fun c => c = 'e' || c = 's')),
      .star reNotNl false], txt "Pines")]

/-- Set union `s.update(vs)` over the insertion-ordered canonical set
representation. -/
def setUpdate (s : List Str) (vs : List Str) : List Str :=
  vs.foldl (fun s v => if v ∈ s then s else s ++ [v]) s

/-- Embedding of `supply_variants` dictionary update for one table row. -/
def svUpdate (d : List (Str × List Str)) (k : Str) (vs : List Str) : List (Str × List Str) :=
  if d.any (fun p => decide (p.1 = k)) then
    d.map (fun p => if p.1 = k then (p.1, setUpdate p.2 vs) else p)
  else d ++ [(k, setUpdate [] vs)]

/-- The `supply_variants` dictionary after the pattern sweep (keys in
insertion order, each value the canonical, insertion-ordered listing of the
variant set). -/
def buildSupplyVariants (t : Str) : List (Str × List Str) :=
  variantes.foldl (fun d pr =>
    let founds := (reFindall pr.1 t).map (fun m => m.group0 t)
    if founds ≠ [] then
      svUpdate d pr.2 ((founds.map pyStrip).filter (fun m => m.length > 3))
    else d) []

/-- Pattern `(REF|LOT|etiqueta|trazabilidad)` (`re.IGNORECASE`). -/
def patTrazKw : RE :=
  .grp (reAlts [reLit true "REF", reLit true "LOT", reLit true "etiqueta",
    reLit true "trazabilidad"])

/-- Embedding of `DescripcionQuirurgicaExtractor._check_traceability_mention_for_supply`. -/
def checkTrazMention (t : Str) (name : Str) : Bool :=
  (pySplitLines t).any (fun line =>
    containsSub (pyLower name) (pyLower line) && (reFind patTrazKw line).isSome)

/-- Embedding of `DescripcionQuirurgicaExtractor._extract_mentioned_supplies`.
The parameter `ordE` models the enumeration order `list(...)` imposes on a
Python `set` of strings, which depends on the interpreter's hash seed: a run
of the program fixes one enumeration function. -/
def extract_mentioned_supplies (ordE : List Str → List Str) (t : Str) :
    List InsumoDescripcion :=
  (buildSupplyVariants t).filterMap (fun p =>
    if p.2 ≠ [] then
      some { nombre := some p.1, variantes_denominacion := ordE p.2,
             mencion_trazabilidad := some (checkTrazMention t p.1) }
    else none)

/-- Pattern `LOT[:\s]*\d+` style keyword finders with their digit groups. -/
def patKwNumGrp (kw : String) : RE :=
  reSeq [reLit true kw, .star reColonWs false, .grp (rePlus reD)]

/-- Embedding of `DescripcionQuirurgicaExtractor._extract_traceability_mentions`. -/
def extract_traceability_mentions (t : Str) : TrazMentions :=
  let hasRef := (reFind (patKwNum "REF") t).isSome
  let hasLot := (reFind (patKwNum "LOT") t).isSome
  { menciona_ref := if hasRef then some true else none,
    refs_encontradas :=
      if hasRef then some ((reFindall (patKwNumGrp "REF") t).filterMap (fun m => m.group1 t))
      else none,
    menciona_lot := if hasLot then some true else none,
    lots_encontrados :=
      if hasLot then some ((reFindall (patKwNumGrp "LOT") t).filterMap (fun m => m.group1 t))
      else none,
    menciona_etiquetas :=
      if (reFind (reSeq [reLit true "etiqueta", reOpt (reChar true 's')]) t).isSome then
        some true
      else none,
    menciona_trazabilidad :=
      if (reFind (reLit true "trazabilidad") t).isSome then some true else none }

/-- Complementary-data pattern groups (all `re.IGNORECASE` except the
procedure-code `findall`). -/
def patsCompFecha : List RE :=
  [.grp (reSeq [reRange reD 1 2, reSlashDash, reRange reD 1 2, reSlashDash, reRep reD 4]),
   .grp (reSeq [reRep reD 4, reSlashDash, reRange reD 1 2, reSlashDash, reRange reD 1 2]),
   reSeq [reLit true "Fecha", rePlus reColonWs, .grp (rePlus reNotNl)],
   .grp (reSeq [reRange reD 1 2, reChar false '/', reRange reD 1 2, reChar false '/',
     reRep reD 4])]

def patsCompPaciente : List RE :=
  [reSeq [reLit true "paciente", rePlus reColonWs, .grp (rePlusLazy (reClsCI esNombreChar)),
     .alt (reChar false '\n') (.eol false)],
   reSeq [reLit true "Nombre", rePlus reColonWs, .grp (rePlusLazy (reClsCI esNombreChar)),
     .alt (reChar false '\n') (.eol false)],
   reSeq [reLit true "CC", rePlus reColonWs, rePlus reD, rePlus reColonWs,
     .grp (rePlusLazy (reClsCI esNombreChar)), .alt (reChar false '\n') (.eol false)]]

def patsCompMedico : List RE :=
  [reSeq [reLit true "Médico", rePlus reS, reLit true "Tratante", rePlus reColonWs,
     .grp (rePlusLazy (reClsCI esNombreDotChar)), .alt (reChar false '\n') (.eol false)],
   reSeq [reLit true "Cirujano", rePlus reColonWs, .grp (rePlusLazy (reClsCI esNombreDotChar)),
     .alt (reChar false '\n') (.eol false)],
   reSeq [reLit true "Dr", reChar false '.', rePlus reS,
     .grp (rePlusLazy (reClsCI esNombreChar)), .alt (reChar false '\n') (.eol false)]]

/-- Procedure-code pattern `T\d+[A-Z]*\d*` (case-sensitive). -/
def patProcCode : RE :=
  reSeq [reChar false 'T', rePlus reD,
    .star (.ch (fun c => decide ('A' ≤ c ∧ c ≤ 'Z'))) false, .star reD false]

def patsCompHospital : List RE :=
  [reSeq [reLit true "HOSPITAL", rePlus reS, .grp (rePlus reNotNl)],
   reSeq [reLit true "Centro", rePlus reColonWs, .grp (rePlus reNotNl)],
   reSeq [reLit true "Institución", rePlus reColonWs, .grp (rePlus reNotNl)]]

/-- Embedding of `DescripcionQuirurgicaExtractor._extract_complementary_data`. -/
def extract_complementary_data (t : Str) : DatosComplementarios :=
  let codes := (reFindall patProcCode t).map (fun m => m.group0 t)
  { fecha := grp1StripLoop t patsCompFecha,
    paciente := grp1StripLoop t patsCompPaciente,
    medico_tratante := grp1StripLoop t patsCompMedico,
    especialidad :=
      match reFind (reSeq [reLit true "Especialidad", rePlus reColonWs,
          .grp (rePlus reNotNl)]) t with
      | some m => some (pyStrip ((m.group1 t).getD []))
      | none => none,
    codigos_procedimiento := if codes ≠ [] then some codes else none,
    tipo_anestesia :=
      match reFind (reSeq [reLit true "Tipo", rePlus reS, reLit true "de", rePlus reS,
          reLit true "anestesia", rePlus reColonWs, .grp (rePlus reNotNl)]) t with
      | some m => some (pyStrip ((m.group1 t).getD []))
      | none => none,
    centro_medico := grp1StripLoop t patsCompHospital }

/-- Embedding of `DescripcionQuirurgicaExtractor.extract`, parameterized by the
set-enumeration order of the run (see `extract_mentioned_supplies`). -/
def descripcion_extract (ordE : List Str → List Str) (t : Str) : DescripcionQuirurgica :=
  let ct := clean_text t
  { descripcion_procedimiento := descProcedure ct,
    insumos_mencionados := extract_mentioned_supplies ordE ct,
    referencias_trazabilidad := extract_traceability_mentions ct,
    datos_complementarios := extract_complementary_data ct }

/-! ## Auxiliary definitions for the verified statements -/

/-- The three fixed recommendation texts of `_generar_recomendacion`; in the
spec's English glosses they are the "urgent" / "necessary" / "optional"
recommendations. -/
def recUrgente : Str := txt "REVISION URGENTE: Múltiples discrepancias críticas detectadas"

def recNecesaria : Str := txt "REVISION NECESARIA: Discrepancias críticas en campos importantes"

def recOpcional : Str := txt "REVISION OPCIONAL: Solo discrepancias menores detectadas"

/-- The number of non-matching HIGH-severity items (the `alta_criticidad`
list length of `_generar_recomendacion`). -/
def nAltaMis (l : List DiscrepanciaItem) : ℕ :=
  (l.filter (fun d => decide (d.criticidad = txt "ALTA") && !d.coincide)).length

/-- The severity tier the specification pre-assigns to each of the seven
field labels (HIGH = `ALTA`, MEDIUM = `MEDIA`, LOW = `BAJA`). -/
def severityOf (campo : Str) : Str :=
  if campo = txt "Datos del procedimiento" ∨ campo = txt "Médico responsable" then txt "MEDIA"
  else if campo = txt "Lugar o ciudad" then txt "BAJA"
  else txt "ALTA"

def dItemDefault : DiscrepanciaItem :=
  { campo := [], tipo_anexo1 := [], tipo_anexo2 := [], tipo_anexo3 := [],
    coincide := false, observaciones := [], criticidad := [] }

/-- A result record carrying only a report date (all three sources agree on
it), used to exhibit outcome-dependent severities. -/
def rFecha : Resultado := { fecha_reporte := some (txt "1/1/2024") }

/-- Two legitimate enumerations of a Python string set: hash-seed dependent
runs may produce either. -/
def enumId : List Str → List Str := fun l => l

def enumRev : List Str → List Str := fun l => l.reverse

/-- A surgical-description text mentioning the same canonical supply under
two denominations. -/
def tDesc9 : Str := txt "tornillo grande\ntornillo pequeno"

/-- Concrete inputs used by witnesses. -/
def mkItem (campo : String) (c : Bool) (crit : String) : DiscrepanciaItem :=
  { campo := txt campo, tipo_anexo1 := [], tipo_anexo2 := [], tipo_anexo3 := [],
    coincide := c, observaciones := [], criticidad := txt crit }

def wItems : List DiscrepanciaItem :=
  [mkItem "a" true "BAJA", mkItem "b" false "ALTA", mkItem "c" true "BAJA",
   mkItem "d" false "MEDIA", mkItem "e" true "BAJA", mkItem "f" false "BAJA",
   mkItem "g" true "BAJA"]

def wIns1 : List InsumoDict := [{ nombre := some (txt "tornillo"), cantidad := some (.qint 5) }]

def wIns3 : List InsumoDict := [{ nombre := some (txt "Tornillo "), cantidad := some (.qint 5) }]

def wIns10a : List InsumoDict := [{ nombre := some (txt "gasa"), cantidad := none }]

def wIns10b : List InsumoDict := [{ nombre := some (txt "gasa"), cantidad := some (.qint 5) }]

def tInt7 : Str := txt "2 Tornillo 123456"

def tHosp7 : Str := txt "Cirujano: Pedro Gomez\n1 Placa grande"

/-- The first character, when present, is not whitespace. -/
def headOK (l : Str) : Prop := ∀ c, l.head? = some c → iws c = false

/-- The last character, when present, is not whitespace. -/
def lastOK (l : Str) : Prop := ∀ c, l.getLast? = some c → iws c = false

/-! # Theorems -/

/-! ## Set-materialization lemmas -/

theorem mem_pyDedupGo {α : Type} [DecidableEq α] (l : List α) (seen : List α) (x : α) :
    x ∈ pyDedupGo seen l ↔ x ∈ l ∧ x ∉ seen := by
  induction l generalizing seen with
  | nil => simp [pyDedupGo]
  | cons a rest ih =>
      by_cases ha : a ∈ seen
      · simp only [pyDedupGo, if_pos ha, ih, List.mem_cons]
        constructor
        · rintro ⟨h1, h2⟩; exact ⟨Or.inr h1, h2⟩
        · rintro ⟨h1 | h1, h2⟩
          · exact absurd (h1 ▸ ha) h2
          · exact ⟨h1, h2⟩
      · simp only [pyDedupGo, if_neg ha, List.mem_cons, ih]
        constructor
        · rintro (rfl | ⟨h1, h2⟩)
          · exact ⟨Or.inl rfl, ha⟩
          · rw [List.mem_append] at h2
            push_neg at h2
            exact ⟨Or.inr h1, h2.1⟩
        · rintro ⟨h1 | h1, h2⟩
          · exact Or.inl h1
          · by_cases hxa : x = a
            · exact Or.inl hxa
            · refine Or.inr ⟨h1, ?_⟩
              rw [List.mem_append]
              push_neg
              exact ⟨h2, by simpa using hxa⟩

theorem mem_pyDedup {α : Type} [DecidableEq α] (l : List α) (x : α) :
    x ∈ pyDedup l ↔ x ∈ l := by
  rw [pyDedup, mem_pyDedupGo]; simp

theorem pyDedupGo_eq_nil {α : Type} [DecidableEq α] (l : List α) (seen : List α) :
    pyDedupGo seen l = [] ↔ ∀ x ∈ l, x ∈ seen := by
  induction l generalizing seen with
  | nil => simp [pyDedupGo]
  | cons a rest ih =>
      by_cases ha : a ∈ seen
      · simp [pyDedupGo, ha, ih]
      · simp only [pyDedupGo, if_neg ha]
        constructor
        · intro h; exact absurd h (List.cons_ne_nil _ _)
        · intro h; exact absurd (h a (List.mem_cons_self a rest)) ha

theorem pyDedup_eq_nil {α : Type} [DecidableEq α] (l : List α) :
    pyDedup l = [] ↔ l = [] := by
  rw [pyDedup, pyDedupGo_eq_nil]
  simp [List.eq_nil_iff_forall_not_mem]

theorem two_mem_two_le_length {α : Type} {u : List α} {x y : α}
    (hx : x ∈ u) (hy : y ∈ u) (hxy : x ≠ y) : 2 ≤ u.length := by
  match u with
  | [] => cases hx
  | [b] =>
      simp only [List.mem_singleton] at hx hy
      exact absurd (hx.trans hy.symm) hxy
  | b :: c :: t => simp only [List.length_cons]; omega

theorem pyDedup_length_le_one {α : Type} [DecidableEq α] (l : List α) :
    (pyDedup l).length ≤ 1 ↔ ∀ x ∈ l, ∀ y ∈ l, x = y := by
  constructor
  · intro h x hx y hy
    by_contra hxy
    have := two_mem_two_le_length ((mem_pyDedup l x).mpr hx) ((mem_pyDedup l y).mpr hy) hxy
    omega
  · intro h
    cases l with
    | nil => simp [pyDedup, pyDedupGo]
    | cons a rest =>
        have : pyDedup (a :: rest) = a :: pyDedupGo [a] rest := by
          simp [pyDedup, pyDedupGo]
        rw [this, List.length_cons]
        have hnil : pyDedupGo [a] rest = [] := by
          rw [pyDedupGo_eq_nil]
          intro x hx
          simp [h x (List.mem_cons_of_mem a hx) a (List.mem_cons_self a rest)]
        simp [hnil]

theorem pyDedup_length_eq_one {α : Type} [DecidableEq α] (l : List α) :
    (pyDedup l).length = 1 ↔ l ≠ [] ∧ ∀ x ∈ l, ∀ y ∈ l, x = y := by
  constructor
  · intro h
    refine ⟨?_, (pyDedup_length_le_one l).mp (by omega)⟩
    intro hnil
    rw [hnil] at h
    simp [pyDedup, pyDedupGo] at h
  · rintro ⟨hne, hall⟩
    have hle := (pyDedup_length_le_one l).mpr hall
    have hpos : pyDedup l ≠ [] := by
      rw [Ne, pyDedup_eq_nil]; exact hne
    have := List.length_pos.mpr hpos
    omega

/-! ## Date-comparison characterization -/

theorem comparar_fechas_fst (f1 f2 f3 : Str) :
    (comparar_fechas f1 f2 f3).1 = true ↔
      (pyDedup (fechas_validas f1 f2 f3)).length = 1 := by
  unfold comparar_fechas
  by_cases h : fechas_validas f1 f2 f3 = []
  · simp [h, pyDedup, pyDedupGo]
  · by_cases h2 : (pyDedup (fechas_validas f1 f2 f3)).length = 1 <;> simp [h, h2]

theorem comparar_fechas_none (f1 f2 f3 : Str) (h : fechas_validas f1 f2 f3 = []) :
    comparar_fechas f1 f2 f3 = (false, txt "No se encontraron fechas válidas") := by
  unfold comparar_fechas
  simp [h]

/-- C5: `comparar_fechas` extracts at most one date token per source (first
matching pattern of the fixed format list wins, as the priority conjunct
shows for the head pattern), reports match exactly when the sources that
yielded a token all yielded the same date (sources without a token are
ignored), and reports a no-valid-dates failure when no source yields one. -/
theorem c5_comparar_fechas (f1 f2 f3 : Str) :
    ((comparar_fechas f1 f2 f3).1 = true ↔
      (fechas_validas f1 f2 f3 ≠ [] ∧
        ∀ x ∈ fechas_validas f1 f2 f3, ∀ y ∈ fechas_validas f1 f2 f3, x = y)) ∧
    (fechas_validas f1 f2 f3 = [] →
      comparar_fechas f1 f2 f3 = (false, txt "No se encontraron fechas válidas")) ∧
    (∀ t m, reFind (patFechaDMY '/') (normalizar_texto t) = some m →
      extraer_fecha_texto t = some (m.group0 (normalizar_texto t))) := by
  refine ⟨?_, comparar_fechas_none f1 f2 f3, ?_⟩
  · rw [comparar_fechas_fst, pyDedup_length_eq_one]
  · intro t m hm
    unfold extraer_fecha_texto patrones_fecha firstPatternHit
    rw [hm]

/-- C5 witness: the three spec sample texts agree on `10/05/2024`, and three
empty sources give the no-valid-dates failure. -/
theorem c5_witness :
    (comparar_fechas (txt "Fecha: 10/05/2024") (txt "10/05/2024 registrado")
      (txt "el 10/05/2024")).1 = true ∧
    comparar_fechas [] [] [] = (false, txt "No se encontraron fechas válidas") :=
  ⟨(c5_comparar_fechas _ _ _).1.mpr (by decide),
   (c5_comparar_fechas [] [] []).2.1 (by decide)⟩

/-! ## Supply-set characterization -/

theorem comparar_insumos_fst (i1 i2 i3 : List InsumoDict) :
    (comparar_insumos i1 i2 i3).1 = true ↔
      (todosInsumos i1 i2 i3 ≠ [] ∧ ∀ n ∈ todosInsumos i1 i2 i3,
        (pyDedup (presentesInsumo i1 i2 i3 n)).length ≤ 1) := by
  unfold comparar_insumos
  by_cases h : todosInsumos i1 i2 i3 = []
  · simp [h]
  · rw [if_neg h]
    dsimp only
    split
    next hc =>
      have hf' := List.filter_eq_nil_iff.mp (List.map_eq_nil_iff.mp hc)
      simp only [ne_eq, h, not_false_iff, true_and, true_iff]
      intro n hn
      have := hf' n hn
      simp only [decide_eq_true_eq, not_le] at this
      unfold presentesInsumo
      omega
    next hc =>
      simp only [Bool.false_eq_true, false_iff, not_and, ne_eq, h, not_false_iff,
        forall_true_left]
      intro hall
      have hfne : ¬ ((todosInsumos i1 i2 i3).filter
          (fun n => decide (2 ≤ (pyDedup (cantidadesPresentes (extraer_nombres_cantidades i1)
            (extraer_nombres_cantidades i2) (extraer_nombres_cantidades i3) n)).length)) = []) := by
        intro hcon
        exact hc (by rw [hcon]; rfl)
      rcases List.exists_mem_of_ne_nil _ hfne with ⟨n, hn⟩
      have hmem := List.mem_of_mem_filter hn
      have hprop := List.of_mem_filter hn
      simp only [decide_eq_true_eq] at hprop
      have := hall n hmem
      unfold presentesInsumo at this
      omega

/-- C4: `comparar_insumos` canonicalizes each source list into a
name-to-quantity dictionary and matches exactly when the union of canonical
names is inhabited and no canonical name carries two distinct quantities
among the sources in which it is present (absence from a source is never a
conflict); an empty union yields the no-supplies failure. -/
theorem c4_comparar_insumos (i1 i2 i3 : List InsumoDict) :
    ((comparar_insumos i1 i2 i3).1 = true ↔
      (todosInsumos i1 i2 i3 ≠ [] ∧ ∀ n ∈ todosInsumos i1 i2 i3,
        ∀ x ∈ presentesInsumo i1 i2 i3 n, ∀ y ∈ presentesInsumo i1 i2 i3 n, x = y)) ∧
    (todosInsumos i1 i2 i3 = [] →
      comparar_insumos i1 i2 i3 =
        (false, txt "No se encontraron insumos en ningún documento")) := by
  constructor
  · rw [comparar_insumos_fst]
    simp only [pyDedup_length_le_one]
  · intro h
    unfold comparar_insumos
    simp [h]

/-- C4 witness: canonical `tornillo` with quantity 5 in source 1, absent in
source 2, quantity 5 in source 3 still matches. -/
theorem c4_witness : (comparar_insumos wIns1 [] wIns3).1 = true :=
  (c4_comparar_insumos wIns1 [] wIns3).1.mpr (by decide)

/-- C10: a present supply whose quantity key is missing contributes the
`'N/A'` placeholder rather than being ignored, so a canonical name that is
quantity-less in one source and numeric in another is a conflict and the
field does not match. -/
theorem c10_cantidad_na :
    (∀ i : InsumoDict, i.cantidad = none → insumoGetCant i = .qna) ∧
    (∀ (i1 i2 i3 : List InsumoDict) (n : Str) (q : ℤ),
      dictLookup (extraer_nombres_cantidades i1) n = some .qna →
      dictLookup (extraer_nombres_cantidades i2) n = some (.qv (.qint q)) →
      (comparar_insumos i1 i2 i3).1 = false) := by
  constructor
  · intro i h
    simp [insumoGetCant, h]
  · intro i1 i2 i3 n q h1 h2
    have hn1 : n ∈ dictKeys (extraer_nombres_cantidades i1) := by
      unfold dictLookup at h1
      cases hf : (extraer_nombres_cantidades i1).find? (fun p => decide (p.1 = n)) with
      | none => rw [hf] at h1; simp at h1
      | some p =>
          have hp := List.find?_some hf
          simp only [decide_eq_true_eq] at hp
          have hmem := List.mem_of_find?_eq_some hf
          unfold dictKeys
          exact List.mem_map.mpr ⟨p, hmem, hp⟩
    have hmemT : n ∈ todosInsumos i1 i2 i3 := by
      rw [todosInsumos, mem_pyDedup]
      exact List.mem_append.mpr (Or.inl (List.mem_append.mpr (Or.inl hn1)))
    have hx : CVal.qna ∈ presentesInsumo i1 i2 i3 n := by
      unfold presentesInsumo cantidadesPresentes
      rw [List.mem_filterMap]
      exact ⟨some .qna, by rw [← h1]; simp, rfl⟩
    have hy : CVal.qv (.qint q) ∈ presentesInsumo i1 i2 i3 n := by
      unfold presentesInsumo cantidadesPresentes
      rw [List.mem_filterMap]
      exact ⟨some (.qv (.qint q)), by rw [← h2]; simp, rfl⟩
    have hnot : ¬ ((comparar_insumos i1 i2 i3).1 = true) := by
      rw [comparar_insumos_fst]
      rintro ⟨-, hall⟩
      have hle := (pyDedup_length_le_one _).mp (hall n hmemT)
      exact CVal.noConfusion (hle _ hx _ hy)
    cases hb : (comparar_insumos i1 i2 i3).1 with
    | false => rfl
    | true => exact absurd hb hnot

/-- C10 witness: `gasa` with no quantity key in source 1 against `gasa`
with quantity 5 in source 2 is reported as a conflict. -/
theorem c10_witness : (comparar_insumos wIns10a wIns10b []).1 = false :=
  c10_cantidad_na.2 wIns10a wIns10b [] (txt "gasa") 5 (by decide) (by decide)

/-! ## Classifier: the fixed seven-item output -/

/-- C2 (code bug): `procesar_resultados` does raise on a realizable input —
a serialized record whose `datos_procedimiento` key is present with `null`
(the pipeline's own dump when no procedure was found) hits `len(None)` and
the call propagates `TypeError`, so no Summary is derivable there.  On
records with no `null`-valued keys the claim's remaining content holds: the
run succeeds and produces exactly the seven comparisons in the fixed order
(report date, patient, procedure, physician, location, supplies,
traceability), entirely absent inputs give seven `coincide = false` items
with the no-data rationales, and the derived summary evaluates 7 fields. -/
theorem c2_procesar_raises :
    procesar_resultados_chk rNullProc {} {} = .error .typeErrorLenOfNone ∧
    (∀ r1 r2 r3 : ResultadoJson, r1.noNulls → r2.noNulls → r3.noNulls →
      procesar_resultados_chk r1 r2 r3 =
        .ok (procesar_resultados r1.toResultado r2.toResultado r3.toResultado)) ∧
    (∀ r1 r2 r3 : Resultado, (procesar_resultados r1 r2 r3).map (fun d => d.campo) =
      [txt "Fecha de cirugía/reporte", txt "Datos del paciente", txt "Datos del procedimiento",
       txt "Médico responsable", txt "Lugar o ciudad", txt "Insumos utilizados",
       txt "Trazabilidad (REF/LOT)"]) ∧
    ((procesar_resultados {} {} {}).map (fun d => (d.coincide, d.observaciones)) =
      [(false, txt "No se encontraron fechas válidas"),
       (false, txt "No se encontraron nombres válidos"),
       (false, txt "No se encontraron nombres válidos"),
       (false, txt "No se encontraron nombres válidos"),
       (false, txt "No se encontraron nombres válidos"),
       (false, txt "No se encontraron insumos en ningún documento"),
       (false, txt "No hay datos del Tipo 1 (Interno)")]) ∧
    (∀ r1 r2 r3 : Resultado,
      (generar_resumen_ejecutivo (procesar_resultados r1 r2 r3)).total_campos_evaluados = 7) := by
  refine ⟨by decide, ?_, fun _ _ _ => rfl, by decide, fun _ _ _ => rfl⟩
  intro r1 r2 r3 h1 h2 h3
  obtain ⟨-, -, hd1, -, -, -, hi1, -, -⟩ := h1
  obtain ⟨-, -, hd2, -, -, -, hi2, -, -⟩ := h2
  obtain ⟨-, -, hd3, -, -, -, -, him3, -⟩ := h3
  unfold procesar_resultados_chk
  rw [if_neg hd1, if_neg hd2, if_neg hd3, if_neg hi1, if_neg hi2, if_neg him3]

/-- C2 witness: on the all-absent serialized records (no `null`-valued
keys) the checked run succeeds with the total model's output. -/
theorem c2_witness :
    procesar_resultados_chk {} {} {} =
      .ok (procesar_resultados (ResultadoJson.toResultado {}) (ResultadoJson.toResultado {})
        (ResultadoJson.toResultado {})) :=
  c2_procesar_raises.2.1 {} {} {} (by simp [ResultadoJson.noNulls])
    (by simp [ResultadoJson.noNulls]) (by simp [ResultadoJson.noNulls])

theorem crit_shape_alta (b : Bool) (campo : Str) (hA : severityOf campo = txt "ALTA") :
    (if !b then txt "ALTA" else txt "BAJA") = if b then txt "BAJA" else severityOf campo := by
  cases b <;> simp [hA]

theorem crit_shape_media (b : Bool) (campo : Str) (hM : severityOf campo = txt "MEDIA") :
    (if !b then txt "MEDIA" else txt "BAJA") = if b then txt "BAJA" else severityOf campo := by
  cases b <;> simp [hM]

theorem crit_shape_baja (b : Bool) (campo : Str) (hB : severityOf campo = txt "BAJA") :
    (txt "BAJA" : Str) = if b then txt "BAJA" else severityOf campo := by
  cases b <;> simp [hB]

/-- C3 counterexample: with the same report date `1/1/2024` in all three
sources the date comparison matches and the produced date item carries
severity `BAJA`, not the `ALTA` tier the claim pre-assigns to the
report-date field regardless of outcome. -/
theorem c3_counterexample :
    ((procesar_resultados rFecha rFecha rFecha).get? 0).map (fun d => d.criticidad) =
      some (txt "BAJA") ∧
    ((procesar_resultados rFecha rFecha rFecha).get? 0).map (fun d => d.criticidad) ≠
      some (txt "ALTA") := by
  decide

/-- C3 (amended): each produced item carries the field's pre-assigned tier
only when its comparison fails (date/patient/supplies/traceability `ALTA`,
procedure/physician `MEDIA`, location `BAJA`); a matching comparison always
yields severity `BAJA`. -/
theorem c3_amended (r1 r2 r3 : Resultado) :
    ∀ d ∈ procesar_resultados r1 r2 r3,
      d.criticidad = if d.coincide then txt "BAJA" else severityOf d.campo := by
  intro d hd
  unfold procesar_resultados at hd
  dsimp only at hd
  simp only [List.mem_cons, List.not_mem_nil, or_false] at hd
  rcases hd with rfl | rfl | rfl | rfl | rfl | rfl | rfl
  all_goals dsimp only
  all_goals
    first
    | exact crit_shape_alta _ _ (by decide)
    | exact crit_shape_media _ _ (by decide)
    | exact crit_shape_baja _ _ (by decide)

/-- C3 witness: the amended statement applied to the first item produced
from empty inputs. -/
theorem c3_witness :
    ((procesar_resultados {} {} {}).headD dItemDefault).criticidad =
      (if ((procesar_resultados {} {} {}).headD dItemDefault).coincide then txt "BAJA"
       else severityOf ((procesar_resultados {} {} {}).headD dItemDefault).campo) :=
  c3_amended {} {} {} _ (by decide)

/-! ## Aggregator lemmas -/

theorem countLookup_critUpsert (d : List (Str × ℕ)) (k s : Str) :
    countLookup (critUpsert d k) s = countLookup d s + if s = k then 1 else 0 := by
  unfold critUpsert countLookup
  by_cases hany : d.any (fun p => decide (p.1 = k)) = true
  · rw [if_pos hany, List.find?_map]
    have hpred : ((fun p : Str × ℕ => decide (p.1 = s)) ∘
        (fun p : Str × ℕ => if p.1 = k then (k, p.2 + 1) else p)) =
        fun p : Str × ℕ => decide (p.1 = s) := by
      funext p
      by_cases hp : p.1 = k <;> simp [hp]
    rw [hpred]
    cases hfind : d.find? (fun p => decide (p.1 = s)) with
    | none =>
        by_cases hsk : s = k
        · subst hsk
          rcases List.any_eq_true.mp hany with ⟨p, hp, hpk⟩
          simp only [decide_eq_true_eq] at hpk
          have : (d.find? (fun p => decide (p.1 = s))).isSome := by
            rw [List.find?_isSome]
            exact ⟨p, hp, by simp [hpk]⟩
          rw [hfind] at this
          simp at this
        · simp [hsk]
    | some p =>
        have hp := List.find?_some hfind
        simp only [decide_eq_true_eq] at hp
        by_cases hsk : s = k
        · subst hsk
          simp [hp, Option.map_some]
        · have hpk : ¬ p.1 = k := by rw [hp]; exact hsk
          simp [hpk, hsk, Option.map_some]
  · rw [if_neg hany]
    cases hfind : d.find? (fun p => decide (p.1 = s)) with
    | none =>
        rw [List.find?_append, hfind]
        by_cases hsk : s = k
        · subst hsk
          simp
        · have : ¬ (k = s) := fun hc => hsk hc.symm
          simp [this, hsk]
    | some p =>
        have hp := List.find?_some hfind
        simp only [decide_eq_true_eq] at hp
        have hsk : ¬ s = k := by
          intro hc
          subst hc
          exact hany (List.any_eq_true.mpr ⟨p, List.mem_of_find?_eq_some hfind, by simp [hp]⟩)
        rw [List.find?_append, hfind]
        simp [hsk]

theorem criticidad_counts_foldl (l : List DiscrepanciaItem) (acc : List (Str × ℕ)) (s : Str) :
    countLookup (l.foldl (fun acc d => if !d.coincide then critUpsert acc d.criticidad else acc)
        acc) s =
      countLookup acc s +
        ((l.filter (fun d => !d.coincide)).filter (fun d => decide (d.criticidad = s))).length := by
  induction l generalizing acc with
  | nil => simp
  | cons d rest ih =>
      rw [List.foldl_cons, ih]
      cases hc : d.coincide with
      | true => simp [hc]
      | false =>
          have hfil : (d :: rest).filter (fun d => !d.coincide) =
              d :: rest.filter (fun d => !d.coincide) := by
            simp [List.filter_cons, hc]
          rw [if_pos (show (!false) = true from rfl), hfil, List.filter_cons,
            countLookup_critUpsert]
          by_cases hcrit : d.criticidad = s
          · rw [if_pos (show decide (d.criticidad = s) = true from by simp [hcrit]),
              if_pos (show s = d.criticidad from hcrit.symm), List.length_cons]
            omega
          · rw [if_neg (show ¬ decide (d.criticidad = s) = true from by simp [hcrit]),
              if_neg (show ¬ s = d.criticidad from fun hc2 => hcrit hc2.symm)]
            omega

theorem criticidad_counts_spec (l : List DiscrepanciaItem) (s : Str) :
    countLookup (criticidad_counts l) s =
      ((l.filter (fun d => !d.coincide)).filter (fun d => decide (d.criticidad = s))).length := by
  have := criticidad_counts_foldl l [] s
  unfold criticidad_counts
  simpa [countLookup] using this

/-- C1: for a seven-item classification, `generar_resumen_ejecutivo` reports
total 7, matching count = number of items with `coincide`, mismatched count
= 7 minus that, percentage = matching/7 × 100 rounded to two decimals,
per-severity counts taken over the non-matching items only, manual review
exactly when some `ALTA` item fails, and the urgent / necessary / optional
recommendation according to whether the number of failing `ALTA` items is
at least 3, in 1..2, or 0. -/
theorem c1_resumen_ejecutivo (l : List DiscrepanciaItem) (h : l.length = 7) :
    (generar_resumen_ejecutivo l).total_campos_evaluados = 7 ∧
    (generar_resumen_ejecutivo l).campos_coincidentes =
      (l.filter (fun d => d.coincide)).length ∧
    (generar_resumen_ejecutivo l).campos_con_discrepancias =
      7 - (l.filter (fun d => d.coincide)).length ∧
    (generar_resumen_ejecutivo l).porcentaje_coincidencia =
      round2 (((l.filter (fun d => d.coincide)).length : ℚ) / 7 * 100) ∧
    (∀ s : Str, countLookup ((generar_resumen_ejecutivo l).discrepancias_por_criticidad) s =
      ((l.filter (fun d => !d.coincide)).filter (fun d => decide (d.criticidad = s))).length) ∧
    ((generar_resumen_ejecutivo l).requiere_revision_manual = true ↔
      ∃ d ∈ l, d.criticidad = txt "ALTA" ∧ d.coincide = false) ∧
    (3 ≤ nAltaMis l → (generar_resumen_ejecutivo l).recomendacion = recUrgente) ∧
    (1 ≤ nAltaMis l ∧ nAltaMis l < 3 →
      (generar_resumen_ejecutivo l).recomendacion = recNecesaria) ∧
    (nAltaMis l = 0 → (generar_resumen_ejecutivo l).recomendacion = recOpcional) := by
  unfold generar_resumen_ejecutivo
  dsimp only
  rw [List.countP_eq_length_filter]
  refine ⟨h, rfl, by rw [h], by rw [h]; norm_num, fun s => criticidad_counts_spec l s,
    ?_, ?_, ?_, ?_⟩
  · rw [List.any_eq_true]
    constructor
    · rintro ⟨d, hd, hp⟩
      simp only [Bool.and_eq_true, decide_eq_true_eq, Bool.not_eq_true'] at hp
      exact ⟨d, hd, hp⟩
    · rintro ⟨d, hd, h1, h2⟩
      exact ⟨d, hd, by simp [h1, h2]⟩
  · intro hk
    unfold nAltaMis at hk
    unfold generar_recomendacion
    dsimp only
    rw [if_pos hk]
    rfl
  · rintro ⟨h1, h2⟩
    unfold nAltaMis at h1 h2
    unfold generar_recomendacion
    dsimp only
    rw [if_neg (by omega), if_pos h1]
    rfl
  · intro h0
    unfold nAltaMis at h0
    unfold generar_recomendacion
    dsimp only
    rw [if_neg (by omega), if_neg (by omega)]
    rfl

/-- C1 witness: a concrete seven-item list with four matches and one
failing `ALTA` item. -/
theorem c1_witness :
    (generar_resumen_ejecutivo wItems).porcentaje_coincidencia = round2 ((4 : ℚ) / 7 * 100) ∧
    (generar_resumen_ejecutivo wItems).recomendacion = recNecesaria ∧
    countLookup ((generar_resumen_ejecutivo wItems).discrepancias_por_criticidad)
      (txt "ALTA") = 1 ∧
    (generar_resumen_ejecutivo wItems).requiere_revision_manual = true := by
  obtain ⟨-, -, -, hp, hs, hr, -, hn, -⟩ := c1_resumen_ejecutivo wItems (by decide)
  refine ⟨?_, hn (by decide), ?_, ?_⟩
  · rw [hp, show (wItems.filter (fun d => d.coincide)).length = 4 from by decide]
    norm_num
  · rw [hs (txt "ALTA")]
    decide
  · rw [hr]
    exact ⟨mkItem "b" false "ALTA", by decide, by decide, by decide⟩

/-! ## Extractor invariants -/

/-- C7: every supply entry an extractor emits carries its identifying
field — a non-empty reference code for the internal extractor, a non-empty
name for the hospital extractor, and a name plus a non-empty variant set
for the description extractor; partially matched candidates are never
emitted. -/
theorem c7_identifying :
    (∀ t : Str, ∀ s ∈ (reporteInterno_extract t).insumos_utilizados,
      ∃ r, s.referencia_ref = some r ∧ r ≠ []) ∧
    (∀ (t : Str) (rec : ReporteHospitalQuirurgico), reporteHospital_extract t = .ok rec →
      ∀ s ∈ rec.insumos_utilizados, ∃ nm, s.nombre = some nm ∧ nm ≠ []) ∧
    (∀ ordE : List Str → List Str, (∀ l, (ordE l).Perm l) → ∀ t : Str,
      ∀ s ∈ (descripcion_extract ordE t).insumos_mencionados,
        s.nombre.isSome ∧ s.variantes_denominacion ≠ []) := by
  refine ⟨?_, ?_, ?_⟩
  · intro t s hs
    unfold reporteInterno_extract at hs
    dsimp only at hs
    unfold extract_supplies_with_traceability at hs
    dsimp only at hs
    rw [List.mem_filterMap] at hs
    obtain ⟨p, -, hbuild⟩ := hs
    unfold buildInsumoInterno at hbuild
    cases hfind : reFind patRefCode p.2 with
    | none => rw [hfind] at hbuild; exact absurd hbuild (by simp)
    | some m =>
        rw [hfind] at hbuild
        dsimp only at hbuild
        split at hbuild
        next href =>
            injection hbuild with hbuild
            exact ⟨(m.group1 p.2).getD [], by rw [← hbuild], href⟩
        next => exact absurd hbuild (by simp)
  · intro t rec hok s hs
    unfold reporteHospital_extract at hok
    dsimp only at hok
    cases hdoc : hospDoctor (clean_text t) with
    | error e => rw [hdoc] at hok; exact absurd hok (by simp)
    | ok cir =>
        rw [hdoc] at hok
        dsimp only at hok
        injection hok with hok
        rw [← hok] at hs
        dsimp only at hs
        unfold extract_supplies_basic at hs
        rw [List.mem_filterMap] at hs
        obtain ⟨line, -, hbuild⟩ := hs
        unfold buildInsumoHospital at hbuild
        split at hbuild
        · dsimp only at hbuild
          cases hdm : reFind patDescHosp line with
          | none => rw [hdm] at hbuild; exact absurd hbuild (by simp)
          | some dm =>
              rw [hdm] at hbuild
              dsimp only at hbuild
              split at hbuild
              next hnm =>
                  injection hbuild with hbuild
                  exact ⟨pyStrip (dm.group0 line), by rw [← hbuild], hnm⟩
              next => exact absurd hbuild (by simp)
        · exact absurd hbuild (by simp)
  · intro ordE hperm t s hs
    unfold descripcion_extract at hs
    dsimp only at hs
    unfold extract_mentioned_supplies at hs
    rw [List.mem_filterMap] at hs
    obtain ⟨p, -, hmk⟩ := hs
    split at hmk
    next hp =>
        injection hmk with hmk
        constructor
        · rw [← hmk]
          rfl
        · rw [← hmk]
          dsimp only
          intro hcon
          have hlen := (hperm p.2).length_eq
          rw [hcon] at hlen
          exact hp (List.eq_nil_of_length_eq_zero hlen.symm)
    next => exact absurd hmk (by simp)

/-- C7 witness: the invariant instantiated on concrete texts with one
emitted supply per extractor. -/
theorem c7_witness :
    (∃ r, (((reporteInterno_extract tInt7).insumos_utilizados.headD {}).referencia_ref =
        some r) ∧ r ≠ []) ∧
    (∃ nm, ((((reporteHospital_extract tHosp7).toOption.getD {}).insumos_utilizados.headD
        {}).nombre = some nm) ∧ nm ≠ []) ∧
    (((descripcion_extract enumId tDesc9).insumos_mencionados.headD {}).nombre.isSome ∧
      ((descripcion_extract enumId tDesc9).insumos_mencionados.headD
        {}).variantes_denominacion ≠ []) :=
  ⟨c7_identifying.1 tInt7 _ (by decide),
   c7_identifying.2.1 tHosp7 ((reporteHospital_extract tHosp7).toOption.getD {}) (by decide)
     _ (by decide),
   c7_identifying.2.2 enumId (fun l => List.Perm.refl l) tDesc9 _ (by decide)⟩

/-! ## Determinism of extraction -/

/-- C9 counterexample: the description extractor's variant lists inherit
the enumeration order of a Python string set, so two legitimate runs
(modelled by the two enumeration functions) produce different records on
the same text. -/
theorem c9_counterexample :
    descripcion_extract enumId tDesc9 ≠ descripcion_extract enumRev tDesc9 := by
  decide

/-- C9 (amended): for a fixed set-enumeration order extraction is a
function of the text alone; across enumeration orders every field agrees
except that each supply's denomination-variant list may be permuted. -/
theorem c9_amended (f g : List Str → List Str) (hf : ∀ l, (f l).Perm l)
    (hg : ∀ l, (g l).Perm l) (t : Str) :
    (descripcion_extract f t).tipo_documento = (descripcion_extract g t).tipo_documento ∧
    (descripcion_extract f t).descripcion_procedimiento =
      (descripcion_extract g t).descripcion_procedimiento ∧
    (descripcion_extract f t).referencias_trazabilidad =
      (descripcion_extract g t).referencias_trazabilidad ∧
    (descripcion_extract f t).datos_complementarios =
      (descripcion_extract g t).datos_complementarios ∧
    List.Forall₂ (fun a b => a.nombre = b.nombre ∧
        a.variantes_denominacion.Perm b.variantes_denominacion ∧
        a.mencion_trazabilidad = b.mencion_trazabilidad)
      (descripcion_extract f t).insumos_mencionados
      (descripcion_extract g t).insumos_mencionados := by
  refine ⟨rfl, rfl, rfl, rfl, ?_⟩
  show List.Forall₂ _ (extract_mentioned_supplies f (clean_text t))
    (extract_mentioned_supplies g (clean_text t))
  unfold extract_mentioned_supplies
  generalize buildSupplyVariants (clean_text t) = L
  induction L with
  | nil => simp
  | cons p rest ih =>
      rw [List.filterMap_cons, List.filterMap_cons]
      by_cases hp : p.2 ≠ []
      · simp only [if_pos hp]
        exact List.Forall₂.cons ⟨rfl, (hf p.2).trans (hg p.2).symm, rfl⟩ ih
      · simp only [if_neg hp]
        exact ih

/-- C9 witness: the amended statement at the identity enumeration on the
two-denomination text. -/
theorem c9_witness :
    List.Forall₂ (fun a b => a.nombre = b.nombre ∧
        a.variantes_denominacion.Perm b.variantes_denominacion ∧
        a.mencion_trazabilidad = b.mencion_trazabilidad)
      (descripcion_extract enumId tDesc9).insumos_mencionados
      (descripcion_extract enumId tDesc9).insumos_mencionados :=
  (c9_amended enumId enumId (fun l => List.Perm.refl l) (fun l => List.Perm.refl l)
    tDesc9).2.2.2.2

/-! ## The extractor error policy -/

/-- C6: the internal and description extractors degrade to fully absent
records on empty input, but the hospital extractor raises: its fifth
surgeon pattern carries a variable-width negative lookbehind, which the
`re` module rejects whenever the first four patterns yield no accepted
candidate — so extraction is not exception-free, contradicting the spec's
error policy (code bug). -/
theorem c6_hospital_extract_raises :
    reporteHospital_extract [] = .error .lookbehindNotFixedWidth ∧
    reporteInterno_extract [] = { etiquetas_trazabilidad := {} } ∧
    descripcion_extract enumId [] = {} := by
  decide

/-! ## Idempotence of text normalization -/

theorem pyCharLower_fix (c : Char) : pyCharLower (pyCharLower c) = pyCharLower c := by
  unfold pyCharLower
  cases hfind : lowerTable.find? (fun p => p.1 == c) with
  | none => simp [hfind]
  | some p =>
      have key : ∀ q ∈ lowerTable, lowerTable.find? (fun r => r.1 == q.2) = none := by decide
      simp only [Option.map_some', Option.getD_some]
      rw [key p (List.mem_of_find?_eq_some hfind)]
      rfl

theorem collapseGo_nil (b : Bool) : collapseGo b [] = [] := rfl

theorem collapseGo_cons_ws_true (a : Char) (rest : Str) (ha : iws a = true) :
    collapseGo true (a :: rest) = collapseGo true rest := by
  simp [collapseGo, ha]

theorem collapseGo_cons_ws_false (a : Char) (rest : Str) (ha : iws a = true) :
    collapseGo false (a :: rest) = ' ' :: collapseGo true rest := by
  simp [collapseGo, ha]

theorem collapseGo_cons_nws (b : Bool) (a : Char) (rest : Str) (ha : iws a = false) :
    collapseGo b (a :: rest) = a :: collapseGo false rest := by
  simp [collapseGo, ha]

theorem mem_collapseGo (s : Str) (b : Bool) (c : Char) (h : c ∈ collapseGo b s) :
    c ∈ s ∨ c = ' ' := by
  induction s generalizing b with
  | nil => cases h
  | cons a rest ih =>
      cases ha : iws a with
      | true =>
          cases b with
          | true =>
              rw [collapseGo_cons_ws_true a rest ha] at h
              rcases ih true h with h' | h'
              · exact Or.inl (List.mem_cons_of_mem a h')
              · exact Or.inr h'
          | false =>
              rw [collapseGo_cons_ws_false a rest ha] at h
              rcases List.mem_cons.mp h with rfl | h'
              · exact Or.inr rfl
              · rcases ih true h' with h'' | h''
                · exact Or.inl (List.mem_cons_of_mem a h'')
                · exact Or.inr h''
      | false =>
          rw [collapseGo_cons_nws b a rest ha] at h
          rcases List.mem_cons.mp h with rfl | h'
          · exact Or.inl (List.mem_cons_self _ _)
          · rcases ih false h' with h'' | h''
            · exact Or.inl (List.mem_cons_of_mem a h'')
            · exact Or.inr h''

theorem headOK_collapseGo_true (s : Str) : headOK (collapseGo true s) := by
  induction s with
  | nil => intro c hc; cases hc
  | cons a rest ih =>
      cases ha : iws a with
      | true => rw [collapseGo_cons_ws_true a rest ha]; exact ih
      | false =>
          rw [collapseGo_cons_nws true a rest ha]
          intro c hc
          simp only [List.head?_cons, Option.some.injEq] at hc
          rw [← hc]
          exact ha

theorem collapseGo_true_eq_false (w : Str) (h : headOK w) :
    collapseGo true w = collapseGo false w := by
  cases w with
  | nil => rfl
  | cons c r =>
      have hc : iws c = false := h c rfl
      rw [collapseGo_cons_nws true c r hc, collapseGo_cons_nws false c r hc]

theorem collapseGo_idem (z : Str) : ∀ b, collapseGo false (collapseGo b z) = collapseGo b z := by
  induction z with
  | nil => intro b; rfl
  | cons a rest ih =>
      intro b
      cases ha : iws a with
      | false =>
          rw [collapseGo_cons_nws b a rest ha, collapseGo_cons_nws false a _ ha, ih false]
      | true =>
          cases b with
          | true => rw [collapseGo_cons_ws_true a rest ha]; exact ih true
          | false =>
              rw [collapseGo_cons_ws_false a rest ha,
                collapseGo_cons_ws_false ' ' _ (by decide),
                collapseGo_true_eq_false _ (headOK_collapseGo_true rest), ih true]

theorem lastOK_cons_of_ne {w : Str} (c : Char) (hw : w ≠ []) (h : lastOK w) :
    lastOK (c :: w) := by
  intro d hd
  cases w with
  | nil => exact absurd rfl hw
  | cons w1 w2 =>
      rw [List.getLast?_cons_cons] at hd
      exact h d hd

theorem lastOK_of_cons {a : Char} {rest : Str} (hrest : rest ≠ []) (h : lastOK (a :: rest)) :
    lastOK rest := by
  intro d hd
  cases rest with
  | nil => exact absurd rfl hrest
  | cons b t =>
      refine h d ?_
      rw [List.getLast?_cons_cons]
      exact hd

theorem collapseGo_last_strong (z : Str) :
    ∀ b, z ≠ [] → lastOK z → collapseGo b z ≠ [] ∧ lastOK (collapseGo b z) := by
  induction z with
  | nil => intro b h; exact absurd rfl h
  | cons a rest ih =>
      intro b _ hlast
      cases hrest : rest with
      | nil =>
          subst hrest
          have ha : iws a = false := hlast a rfl
          rw [collapseGo_cons_nws b a [] ha, collapseGo_nil]
          refine ⟨List.cons_ne_nil _ _, ?_⟩
          intro d hd
          simp only [List.getLast?_singleton, Option.some.injEq] at hd
          rw [← hd]
          exact ha
      | cons a2 rest2 =>
          subst hrest
          have hlast' : lastOK (a2 :: rest2) := lastOK_of_cons (List.cons_ne_nil _ _) hlast
          have ihr := fun b => ih b (List.cons_ne_nil _ _) hlast'
          cases ha : iws a with
          | false =>
              rw [collapseGo_cons_nws b a _ ha]
              obtain ⟨hne, hok⟩ := ihr false
              exact ⟨List.cons_ne_nil _ _, lastOK_cons_of_ne a hne hok⟩
          | true =>
              cases b with
              | true =>
                  rw [collapseGo_cons_ws_true a _ ha]
                  exact ihr true
              | false =>
                  rw [collapseGo_cons_ws_false a _ ha]
                  obtain ⟨hne, hok⟩ := ihr true
                  exact ⟨List.cons_ne_nil _ _, lastOK_cons_of_ne ' ' hne hok⟩

theorem headOK_collapseWs (z : Str) (h : headOK z) : headOK (collapseWs z) := by
  cases z with
  | nil => intro c hc; cases hc
  | cons a rest =>
      have ha : iws a = false := h a rfl
      unfold collapseWs
      rw [collapseGo_cons_nws false a rest ha]
      intro c hc
      simp only [List.head?_cons, Option.some.injEq] at hc
      rw [← hc]
      exact ha

theorem headOK_dropWhile (s : Str) : headOK (s.dropWhile iws) := by
  induction s with
  | nil => intro c hc; cases hc
  | cons a rest ih =>
      intro c hc
      rw [List.dropWhile_cons] at hc
      cases ha : iws a with
      | true => rw [ha, if_pos rfl] at hc; exact ih c hc
      | false =>
          rw [ha, if_neg Bool.false_ne_true] at hc
          simp only [List.head?_cons, Option.some.injEq] at hc
          rw [← hc]
          exact ha

theorem getLast?_dropWhile (s : Str) (h : s.dropWhile iws ≠ []) :
    (s.dropWhile iws).getLast? = s.getLast? := by
  conv_rhs => rw [← List.takeWhile_append_dropWhile iws s]
  rw [List.getLast?_append_of_ne_nil _ h]

theorem pyStrip_headOK_lastOK (s : Str) : headOK (pyStrip s) ∧ lastOK (pyStrip s) := by
  unfold pyStrip
  constructor
  · intro c hc
    rw [List.head?_reverse] at hc
    by_cases hv : ((s.dropWhile iws).reverse.dropWhile iws) = []
    · rw [hv] at hc; cases hc
    · rw [getLast?_dropWhile _ hv, List.getLast?_reverse] at hc
      exact headOK_dropWhile s c hc
  · intro c hc
    rw [List.getLast?_reverse] at hc
    exact headOK_dropWhile _ c hc

theorem dropWhile_of_headOK (y : Str) (h : headOK y) : y.dropWhile iws = y := by
  cases y with
  | nil => rfl
  | cons a rest =>
      rw [List.dropWhile_cons, h a rfl]
      simp

theorem pyStrip_fix (y : Str) (h1 : headOK y) (h2 : lastOK y) : pyStrip y = y := by
  unfold pyStrip
  rw [dropWhile_of_headOK y h1]
  have hrev : headOK y.reverse := by
    intro c hc
    rw [List.head?_reverse] at hc
    exact h2 c hc
  rw [dropWhile_of_headOK _ hrev, List.reverse_reverse]

theorem mem_pyStrip (s : Str) (c : Char) (h : c ∈ pyStrip s) : c ∈ s := by
  unfold pyStrip at h
  rw [List.mem_reverse] at h
  have h2 := (List.dropWhile_sublist iws).subset h
  rw [List.mem_reverse] at h2
  exact (List.dropWhile_sublist iws).subset h2

/-- C8: `normalizar_texto` is idempotent. -/
theorem c8_normalizar_idem (t : Str) :
    normalizar_texto (normalizar_texto t) = normalizar_texto t := by
  by_cases ht : t = []
  · simp [ht, normalizar_texto]
  · unfold normalizar_texto
    rw [if_neg ht]
    by_cases hynil : collapseWs (pyStrip (pyLower t)) = []
    · rw [if_pos hynil, hynil]
    · rw [if_neg hynil]
      have hmemfix : ∀ c ∈ collapseWs (pyStrip (pyLower t)), pyCharLower c = c := by
        intro c hc
        rcases mem_collapseGo _ _ _ hc with h' | h'
        · have hl := mem_pyStrip _ _ h'
          unfold pyLower at hl
          rcases List.mem_map.mp hl with ⟨d, -, rfl⟩
          exact pyCharLower_fix d
        · rw [h']
          rfl
      have hlow : pyLower (collapseWs (pyStrip (pyLower t))) =
          collapseWs (pyStrip (pyLower t)) :=
        (List.map_congr_left hmemfix).trans (List.map_id _)
      rw [hlow]
      have hzne : pyStrip (pyLower t) ≠ [] := by
        intro hz
        rw [hz] at hynil
        exact hynil rfl
      obtain ⟨hsh, hsl⟩ := pyStrip_headOK_lastOK (pyLower t)
      have hyh : headOK (collapseWs (pyStrip (pyLower t))) := headOK_collapseWs _ hsh
      have hyl : lastOK (collapseWs (pyStrip (pyLower t))) :=
        (collapseGo_last_strong _ false hzne hsl).2
      rw [pyStrip_fix _ hyh hyl]
      exact collapseGo_idem _ false

end VgMedical
